import Mathlib

/-!
# Lumina vector library: `Vector2`, `Vector3`, `Vector4`

A shallow embedding of `src/src/vector/vector{2,3,4}.cpp` (declarations in
`src/include/lumina/vector/vector{2,3,4}.hpp`).

Conventions of the embedding.

* The template parameter `T` is a Lean type; every function asks only for the
  scalar operations its C++ body uses (`[Add T]`, `[Mul T]`, ...).  Theorems add
  the algebraic laws they need.
* Overloaded operators get names: `operator+(const Vector&)` is `add`,
  `operator+(T)` is `addScalar`, unary `operator-()` is `neg`, `operator==` is
  `eq`, the read-only `operator[]` is `index` and the mutable one `indexMut`.
* `throw std::out_of_range(msg)` is `Except.error (Exception.out_of_range msg)`.
* A `T&` into a vector is the name of the member it refers to (`Field`), read
  with `load` and written with `store`.
* `std::sqrt` and `std::acos` come from `<cmath>` and are taken as parameters;
  `std::min`, `std::max`, `std::clamp` come from `<algorithm>` and are written
  out in namespace `std` after their specification in the C++ standard.
* A C++ `int` index is an `Int`.
* Member functions that assign to `*this` (`operator+=`, ...) work on a `Memory` of
  vector objects, by address.
* Besides the total `/` of `[Div T]`, the division operators and `normalized()` are also
  given over a scalar division `sdiv` that may fail (`...Checked`).
-/

namespace lumina

/-- The exceptions the library throws: `std::out_of_range` with its message. -/
inductive Exception where
  | out_of_range (what : String)
  deriving DecidableEq

/-- The errors an integer scalar division signals: a zero divisor, or a quotient that does not
fit the type. -/
inductive DivisionError where
  | division_by_zero
  | overflow
  deriving DecidableEq

/-- The least value of `int` (32 bits, two's complement), `-2^31`. -/
def INT_MIN : Int := -2147483648

/-- The greatest value of `int` (32 bits, two's complement), `2^31 - 1`. -/
def INT_MAX : Int := 2147483647

/-- Scalar `operator/` of `int`, on values between `INT_MIN` and `INT_MAX`: an error on a zero
divisor and on `INT_MIN / -1`, whose quotient `2^31` does not fit; otherwise the quotient
truncated toward zero. -/
def intDiv (a b : Int) : Except DivisionError Int :=
  if b = 0 then .error .division_by_zero
  else if a = INT_MIN ∧ b = -1 then .error .overflow
  else .ok (a.tdiv b)

/-- Scalar `operator/` of an unsigned integer `T`: an error on a zero divisor, otherwise the
quotient. -/
def uintDiv (a b : Nat) : Except DivisionError Nat :=
  if b = 0 then .error .division_by_zero else .ok (a / b)

/-- Scalar `operator/` of a `T` whose division never fails, as a fallible division. -/
def totalDiv {T : Type} [Div T] (a b : T) : Except DivisionError T := .ok (a / b)

/-- Addresses of the vector objects a member function works on (`this`, `&other`). -/
abbrev Addr := Nat

/-- The vector objects of type `V` in memory, by address. -/
abbrev Memory (V : Type) := Addr → V

/-- Memory after the object at address `a` has been given the value `v`. -/
def Memory.write {V : Type} (m : Memory V) (a : Addr) (v : V) : Memory V :=
  fun b => if b = a then v else m b

end lumina

/-! ## `<algorithm>` -/

namespace std

/-- Standard `std::min(a, b)`: returns `b` if `b < a`, otherwise `a`. -/
def min {T : Type} [LT T] [DecidableRel (fun a b : T => a < b)] (a b : T) : T :=
  if b < a then b else a

/-- Standard `std::max(a, b)`: returns `b` if `a < b`, otherwise `a`. -/
def max {T : Type} [LT T] [DecidableRel (fun a b : T => a < b)] (a b : T) : T :=
  if a < b then b else a

/-- Standard `std::clamp(v, lo, hi)`: returns `lo` if `v < lo`, `hi` if `hi < v`, otherwise `v`.
The standard requires `lo` not greater than `hi`; the library does not check it. -/
def clamp {T : Type} [LT T] [DecidableRel (fun a b : T => a < b)] (v lo hi : T) : T :=
  if v < lo then lo else if hi < v then hi else v

end std

namespace lumina

/-! ## `Vector2` -/

/-- Embeds `class Vector2`: members `T x, y;` -/
structure Vector2 (T : Type) where
  x : T
  y : T
  deriving DecidableEq

namespace Vector2

variable {T : Type}

/-- Embeds `Vector2()` -/
def default [Zero T] : Vector2 T := ⟨0, 0⟩

/-- Embeds `Vector2(const T scalar)` -/
def ofScalar (scalar : T) : Vector2 T := ⟨scalar, scalar⟩

/-- Embeds `operator+(const Vector2 &other)` -/
def add [Add T] (self other : Vector2 T) : Vector2 T :=
  ⟨self.x + other.x, self.y + other.y⟩

/-- Embeds `operator-(const Vector2 &other)` -/
def sub [Sub T] (self other : Vector2 T) : Vector2 T :=
  ⟨self.x - other.x, self.y - other.y⟩

/-- Embeds `operator*(const Vector2 &other)` -/
def mul [Mul T] (self other : Vector2 T) : Vector2 T :=
  ⟨self.x * other.x, self.y * other.y⟩

/-- Embeds `operator/(const Vector2 &other)` -/
def div [Div T] (self other : Vector2 T) : Vector2 T :=
  ⟨self.x / other.x, self.y / other.y⟩

/-- Embeds `operator+(T scalar)` -/
def addScalar [Add T] (self : Vector2 T) (scalar : T) : Vector2 T :=
  ⟨self.x + scalar, self.y + scalar⟩

/-- Embeds `operator-(T scalar)` -/
def subScalar [Sub T] (self : Vector2 T) (scalar : T) : Vector2 T :=
  ⟨self.x - scalar, self.y - scalar⟩

/-- Embeds `operator*(T scalar)` -/
def mulScalar [Mul T] (self : Vector2 T) (scalar : T) : Vector2 T :=
  ⟨self.x * scalar, self.y * scalar⟩

/-- Embeds `operator/(T scalar)` -/
def divScalar [Div T] (self : Vector2 T) (scalar : T) : Vector2 T :=
  ⟨self.x / scalar, self.y / scalar⟩

/-- Unary `operator+()` -/
def pos (self : Vector2 T) : Vector2 T := self

/-- Unary `operator-()` -/
def neg [Neg T] (self : Vector2 T) : Vector2 T := ⟨-self.x, -self.y⟩

/-- Embeds `operator==(const Vector2 &other)` -/
def eq [DecidableEq T] (self other : Vector2 T) : Bool :=
  decide (self.x = other.x) && decide (self.y = other.y)

/-- Embeds `operator!=(const Vector2 &other)` -/
def ne [DecidableEq T] (self other : Vector2 T) : Bool := !(self.eq other)

/-- The members of a `Vector2`, the targets of a `T&` into it. -/
inductive Field where
  | x
  | y
  deriving DecidableEq

/-- Reading through a reference. -/
def load (self : Vector2 T) : Field → T
  | .x => self.x
  | .y => self.y

/-- Writing through a reference. -/
def store (self : Vector2 T) (f : Field) (t : T) : Vector2 T :=
  match f with
  | .x => { self with x := t }
  | .y => { self with y := t }

/-- The members in declaration order (`T x, y;`). -/
def components (self : Vector2 T) : List T := [self.x, self.y]

/-- Embeds `T &operator[](int index)` -/
def indexMut (_self : Vector2 T) (index : Int) : Except Exception Field :=
  if index = 0 then .ok .x
  else if index = 1 then .ok .y
  else .error (.out_of_range "Vector2 index out of range")

/-- Embeds `const T &operator[](int index) const` -/
def index (self : Vector2 T) (index : Int) : Except Exception T :=
  if index = 0 then .ok self.x
  else if index = 1 then .ok self.y
  else .error (.out_of_range "Vector2 index out of range")

/-- Embeds `magnitude()` -/
def magnitude [Add T] [Mul T] (sqrt : T → T) (self : Vector2 T) : T :=
  sqrt (self.x * self.x + self.y * self.y)

/-- Embeds `normalized()` -/
def normalized [Add T] [Mul T] [Div T] [Zero T] [DecidableEq T] (sqrt : T → T)
    (self : Vector2 T) : Vector2 T :=
  let mag := self.magnitude sqrt
  if mag = 0 then ofScalar 0
  else self.divScalar mag

/-- Embeds `sqrMagnitude()` -/
def sqrMagnitude [Add T] [Mul T] (self : Vector2 T) : T :=
  self.x * self.x + self.y * self.y

/-- Embeds `zero()` -/
def zero [Zero T] : Vector2 T := ⟨0, 0⟩

/-- Embeds `one()` -/
def one [One T] : Vector2 T := ⟨1, 1⟩

/-- Embeds `up()` -/
def up [Zero T] [One T] : Vector2 T := ⟨0, 1⟩

/-- Embeds `down()` -/
def down [Zero T] [One T] [Neg T] : Vector2 T := ⟨0, -1⟩

/-- Embeds `left()` -/
def left [Zero T] [One T] [Neg T] : Vector2 T := ⟨-1, 0⟩

/-- Embeds `right()` -/
def right [Zero T] [One T] : Vector2 T := ⟨1, 0⟩

/-- Embeds `dot(a, b)` -/
def dot [Add T] [Mul T] (a b : Vector2 T) : T :=
  a.x * b.x + a.y * b.y

/-- Embeds `angle(a, b)` -/
def angle [Add T] [Mul T] [Div T] [Zero T] [One T] [Neg T] [DecidableEq T] [LT T]
    [DecidableRel (fun a b : T => a < b)] (sqrt acos : T → T) (a b : Vector2 T) : T :=
  let dotProduct := dot (a.normalized sqrt) (b.normalized sqrt)
  let dotProduct := std.clamp dotProduct (-1) 1
  acos dotProduct

/-- Embeds `distance(a, b)` -/
def distance [Add T] [Sub T] [Mul T] (sqrt : T → T) (a b : Vector2 T) : T :=
  (a.sub b).magnitude sqrt

/-- Embeds `lerp(a, b, t)` -/
def lerp [Add T] [Sub T] [Mul T] (a b : Vector2 T) (t : T) : Vector2 T :=
  a.add ((b.sub a).mulScalar t)

/-- Embeds `reflect(vector, normal)` -/
def reflect [Add T] [Sub T] [Mul T] [OfNat T 2] (vector normal : Vector2 T) : Vector2 T :=
  let dotProduct := dot vector normal
  vector.sub (normal.mulScalar (2 * dotProduct))

/-- Embeds `min(a, b)` -/
def min [LT T] [DecidableRel (fun a b : T => a < b)] (a b : Vector2 T) : Vector2 T :=
  ⟨std.min a.x b.x, std.min a.y b.y⟩

/-- Embeds `max(a, b)` -/
def max [LT T] [DecidableRel (fun a b : T => a < b)] (a b : Vector2 T) : Vector2 T :=
  ⟨std.max a.x b.x, std.max a.y b.y⟩

/-- Embeds `clamp(vector, minVec, maxVec)` -/
def clamp [LT T] [DecidableRel (fun a b : T => a < b)] (vector minVec maxVec : Vector2 T) :
    Vector2 T :=
  ⟨std.clamp vector.x minVec.x maxVec.x,
   std.clamp vector.y minVec.y maxVec.y⟩

/-- Embeds `normalize(vector)` -/
def normalize [Add T] [Mul T] [Div T] [Zero T] [DecidableEq T] (sqrt : T → T)
    (vector : Vector2 T) : Vector2 T :=
  vector.normalized sqrt

/-! ### `Vector2`: compound assignment on objects in memory

`self` is the address of `*this` and `other` the address of the argument (the two may be the
same object); the result is the memory after the call and the address the returned
`Vector2 &` refers to.  The scalar `x += e` is `x = x + e`. -/

/-- Embeds `operator+=(const Vector2 &other)` -/
def addAssign [Add T] (m : Memory (Vector2 T)) (self other : Addr) :
    Memory (Vector2 T) × Addr :=
  let m := m.write self { m self with x := (m self).x + (m other).x }
  let m := m.write self { m self with y := (m self).y + (m other).y }
  (m, self)

/-- Embeds `operator-=(const Vector2 &other)` -/
def subAssign [Sub T] (m : Memory (Vector2 T)) (self other : Addr) :
    Memory (Vector2 T) × Addr :=
  let m := m.write self { m self with x := (m self).x - (m other).x }
  let m := m.write self { m self with y := (m self).y - (m other).y }
  (m, self)

/-- Embeds `operator*=(const Vector2 &other)` -/
def mulAssign [Mul T] (m : Memory (Vector2 T)) (self other : Addr) :
    Memory (Vector2 T) × Addr :=
  let m := m.write self { m self with x := (m self).x * (m other).x }
  let m := m.write self { m self with y := (m self).y * (m other).y }
  (m, self)

/-- Embeds `operator/=(const Vector2 &other)` -/
def divAssign [Div T] (m : Memory (Vector2 T)) (self other : Addr) :
    Memory (Vector2 T) × Addr :=
  let m := m.write self { m self with x := (m self).x / (m other).x }
  let m := m.write self { m self with y := (m self).y / (m other).y }
  (m, self)

/-! ### `Vector2`: division over a scalar type whose `operator/` can fail

`sdiv` is the scalar `operator/` of `T`. -/

/-- Embeds `operator/(const Vector2 &other)` over a fallible scalar division. -/
def divChecked {E : Type} (sdiv : T → T → Except E T) (self other : Vector2 T) :
    Except E (Vector2 T) := do
  let x ← sdiv self.x other.x
  let y ← sdiv self.y other.y
  pure ⟨x, y⟩

/-- Embeds `operator/(T scalar)` over a fallible scalar division. -/
def divScalarChecked {E : Type} (sdiv : T → T → Except E T) (self : Vector2 T) (scalar : T) :
    Except E (Vector2 T) := do
  let x ← sdiv self.x scalar
  let y ← sdiv self.y scalar
  pure ⟨x, y⟩

/-- Embeds `operator/=(const Vector2 &other)` over a fallible scalar division. -/
def divAssignChecked {E : Type} (sdiv : T → T → Except E T) (m : Memory (Vector2 T))
    (self other : Addr) : Except E (Memory (Vector2 T) × Addr) := do
  let x ← sdiv (m self).x (m other).x
  let m := m.write self { m self with x := x }
  let y ← sdiv (m self).y (m other).y
  let m := m.write self { m self with y := y }
  pure (m, self)

/-- Embeds `normalized()` over a fallible scalar division. -/
def normalizedChecked {E : Type} [Add T] [Mul T] [Zero T] [DecidableEq T]
    (sdiv : T → T → Except E T) (sqrt : T → T) (self : Vector2 T) : Except E (Vector2 T) :=
  let mag := self.magnitude sqrt
  if mag = 0 then pure (ofScalar 0)
  else self.divScalarChecked sdiv mag

/-- Embeds `normalize(vector)` over a fallible scalar division. -/
def normalizeChecked {E : Type} [Add T] [Mul T] [Zero T] [DecidableEq T]
    (sdiv : T → T → Except E T) (sqrt : T → T) (vector : Vector2 T) : Except E (Vector2 T) :=
  vector.normalizedChecked sdiv sqrt

/-- Embeds `angle(a, b)` over a fallible scalar division. -/
def angleChecked {E : Type} [Add T] [Mul T] [Zero T] [One T] [Neg T] [DecidableEq T] [LT T]
    [DecidableRel (fun a b : T => a < b)] (sdiv : T → T → Except E T) (sqrt acos : T → T)
    (a b : Vector2 T) : Except E T := do
  let na ← a.normalizedChecked sdiv sqrt
  let nb ← b.normalizedChecked sdiv sqrt
  let dotProduct := dot na nb
  let dotProduct := std.clamp dotProduct (-1) 1
  pure (acos dotProduct)

/-- The statement `v[index] = t`, an assignment through the mutable `operator[]`: the vector
afterwards, or the exception `operator[]` throws. -/
def assignIndex (self : Vector2 T) (index : Int) (t : T) : Except Exception (Vector2 T) := do
  let ref ← self.indexMut index
  pure (self.store ref t)

end Vector2

/-! ## `Vector3` -/

/-- Embeds `class Vector3`: members `T x, y, z;` -/
structure Vector3 (T : Type) where
  x : T
  y : T
  z : T
  deriving DecidableEq

namespace Vector3

variable {T : Type}

/-- Embeds `Vector3()` -/
def default [Zero T] : Vector3 T := ⟨0, 0, 0⟩

/-- Embeds `Vector3(const T scalar)` -/
def ofScalar (scalar : T) : Vector3 T := ⟨scalar, scalar, scalar⟩

/-- Embeds `operator+(const Vector3 &other)` -/
def add [Add T] (self other : Vector3 T) : Vector3 T :=
  ⟨self.x + other.x, self.y + other.y, self.z + other.z⟩

/-- Embeds `operator-(const Vector3 &other)` -/
def sub [Sub T] (self other : Vector3 T) : Vector3 T :=
  ⟨self.x - other.x, self.y - other.y, self.z - other.z⟩

/-- Embeds `operator*(const Vector3 &other)` -/
def mul [Mul T] (self other : Vector3 T) : Vector3 T :=
  ⟨self.x * other.x, self.y * other.y, self.z * other.z⟩

/-- Embeds `operator/(const Vector3 &other)` -/
def div [Div T] (self other : Vector3 T) : Vector3 T :=
  ⟨self.x / other.x, self.y / other.y, self.z / other.z⟩

/-- Embeds `operator+(T scalar)` -/
def addScalar [Add T] (self : Vector3 T) (scalar : T) : Vector3 T :=
  ⟨self.x + scalar, self.y + scalar, self.z + scalar⟩

/-- Embeds `operator-(T scalar)` -/
def subScalar [Sub T] (self : Vector3 T) (scalar : T) : Vector3 T :=
  ⟨self.x - scalar, self.y - scalar, self.z - scalar⟩

/-- Embeds `operator*(T scalar)` -/
def mulScalar [Mul T] (self : Vector3 T) (scalar : T) : Vector3 T :=
  ⟨self.x * scalar, self.y * scalar, self.z * scalar⟩

/-- Embeds `operator/(T scalar)` -/
def divScalar [Div T] (self : Vector3 T) (scalar : T) : Vector3 T :=
  ⟨self.x / scalar, self.y / scalar, self.z / scalar⟩

/-- Unary `operator+()` -/
def pos (self : Vector3 T) : Vector3 T := self

/-- Unary `operator-()` -/
def neg [Neg T] (self : Vector3 T) : Vector3 T := ⟨-self.x, -self.y, -self.z⟩

/-- Embeds `operator==(const Vector3 &other)` -/
def eq [DecidableEq T] (self other : Vector3 T) : Bool :=
  decide (self.x = other.x) && decide (self.y = other.y) && decide (self.z = other.z)

/-- Embeds `operator!=(const Vector3 &other)` -/
def ne [DecidableEq T] (self other : Vector3 T) : Bool := !(self.eq other)

/-- The members of a `Vector3`, the targets of a `T&` into it. -/
inductive Field where
  | x
  | y
  | z
  deriving DecidableEq

/-- Reading through a reference. -/
def load (self : Vector3 T) : Field → T
  | .x => self.x
  | .y => self.y
  | .z => self.z

/-- Writing through a reference. -/
def store (self : Vector3 T) (f : Field) (t : T) : Vector3 T :=
  match f with
  | .x => { self with x := t }
  | .y => { self with y := t }
  | .z => { self with z := t }

/-- The members in declaration order (`T x, y, z;`). -/
def components (self : Vector3 T) : List T := [self.x, self.y, self.z]

/-- Embeds `T &operator[](int index)` -/
def indexMut (_self : Vector3 T) (index : Int) : Except Exception Field :=
  if index = 0 then .ok .x
  else if index = 1 then .ok .y
  else if index = 2 then .ok .z
  else .error (.out_of_range "Vector3 index out of range")

/-- Embeds `const T &operator[](int index) const` -/
def index (self : Vector3 T) (index : Int) : Except Exception T :=
  if index = 0 then .ok self.x
  else if index = 1 then .ok self.y
  else if index = 2 then .ok self.z
  else .error (.out_of_range "Vector3 index out of range")

/-- Embeds `magnitude()` -/
def magnitude [Add T] [Mul T] (sqrt : T → T) (self : Vector3 T) : T :=
  sqrt (self.x * self.x + self.y * self.y + self.z * self.z)

/-- Embeds `normalized()` -/
def normalized [Add T] [Mul T] [Div T] [Zero T] [DecidableEq T] (sqrt : T → T)
    (self : Vector3 T) : Vector3 T :=
  let mag := self.magnitude sqrt
  if mag = 0 then ofScalar 0
  else self.divScalar mag

/-- Embeds `sqrMagnitude()` -/
def sqrMagnitude [Add T] [Mul T] (self : Vector3 T) : T :=
  self.x * self.x + self.y * self.y + self.z * self.z

/-- Embeds `zero()` -/
def zero [Zero T] : Vector3 T := ⟨0, 0, 0⟩

/-- Embeds `one()` -/
def one [One T] : Vector3 T := ⟨1, 1, 1⟩

/-- Embeds `up()` -/
def up [Zero T] [One T] : Vector3 T := ⟨0, 1, 0⟩

/-- Embeds `down()` -/
def down [Zero T] [One T] [Neg T] : Vector3 T := ⟨0, -1, 0⟩

/-- Embeds `left()` -/
def left [Zero T] [One T] [Neg T] : Vector3 T := ⟨-1, 0, 0⟩

/-- Embeds `right()` -/
def right [Zero T] [One T] : Vector3 T := ⟨1, 0, 0⟩

/-- Embeds `forward()` -/
def forward [Zero T] [One T] : Vector3 T := ⟨0, 0, 1⟩

/-- Embeds `back()` -/
def back [Zero T] [One T] [Neg T] : Vector3 T := ⟨0, 0, -1⟩

/-- Embeds `dot(a, b)` -/
def dot [Add T] [Mul T] (a b : Vector3 T) : T :=
  a.x * b.x + a.y * b.y + a.z * b.z

/-- Embeds `angle(a, b)` -/
def angle [Add T] [Mul T] [Div T] [Zero T] [One T] [Neg T] [DecidableEq T] [LT T]
    [DecidableRel (fun a b : T => a < b)] (sqrt acos : T → T) (a b : Vector3 T) : T :=
  let dotProduct := dot (a.normalized sqrt) (b.normalized sqrt)
  let dotProduct := std.clamp dotProduct (-1) 1
  acos dotProduct

/-- Embeds `distance(a, b)` -/
def distance [Add T] [Sub T] [Mul T] (sqrt : T → T) (a b : Vector3 T) : T :=
  (a.sub b).magnitude sqrt

/-- Embeds `cross(a, b)` -/
def cross [Sub T] [Mul T] (a b : Vector3 T) : Vector3 T :=
  ⟨a.y * b.z - a.z * b.y,
   a.z * b.x - a.x * b.z,
   a.x * b.y - a.y * b.x⟩

/-- Embeds `lerp(a, b, t)` -/
def lerp [Add T] [Sub T] [Mul T] (a b : Vector3 T) (t : T) : Vector3 T :=
  a.add ((b.sub a).mulScalar t)

/-- Embeds `reflect(vector, normal)` -/
def reflect [Add T] [Sub T] [Mul T] [OfNat T 2] (vector normal : Vector3 T) : Vector3 T :=
  let dotProduct := dot vector normal
  vector.sub (normal.mulScalar (2 * dotProduct))

/-- Embeds `min(a, b)` -/
def min [LT T] [DecidableRel (fun a b : T => a < b)] (a b : Vector3 T) : Vector3 T :=
  ⟨std.min a.x b.x, std.min a.y b.y, std.min a.z b.z⟩

/-- Embeds `max(a, b)` -/
def max [LT T] [DecidableRel (fun a b : T => a < b)] (a b : Vector3 T) : Vector3 T :=
  ⟨std.max a.x b.x, std.max a.y b.y, std.max a.z b.z⟩

/-- Embeds `clamp(vector, minVec, maxVec)` -/
def clamp [LT T] [DecidableRel (fun a b : T => a < b)] (vector minVec maxVec : Vector3 T) :
    Vector3 T :=
  ⟨std.clamp vector.x minVec.x maxVec.x,
   std.clamp vector.y minVec.y maxVec.y,
   std.clamp vector.z minVec.z maxVec.z⟩

/-- Embeds `normalize(vector)` -/
def normalize [Add T] [Mul T] [Div T] [Zero T] [DecidableEq T] (sqrt : T → T)
    (vector : Vector3 T) : Vector3 T :=
  vector.normalized sqrt

/-! ### `Vector3`: compound assignment on objects in memory

`self` is the address of `*this` and `other` the address of the argument (the two may be the
same object); the result is the memory after the call and the address the returned
`Vector3 &` refers to.  The scalar `x += e` is `x = x + e`. -/

/-- Embeds `operator+=(const Vector3 &other)` -/
def addAssign [Add T] (m : Memory (Vector3 T)) (self other : Addr) :
    Memory (Vector3 T) × Addr :=
  let m := m.write self { m self with x := (m self).x + (m other).x }
  let m := m.write self { m self with y := (m self).y + (m other).y }
  let m := m.write self { m self with z := (m self).z + (m other).z }
  (m, self)

/-- Embeds `operator-=(const Vector3 &other)` -/
def subAssign [Sub T] (m : Memory (Vector3 T)) (self other : Addr) :
    Memory (Vector3 T) × Addr :=
  let m := m.write self { m self with x := (m self).x - (m other).x }
  let m := m.write self { m self with y := (m self).y - (m other).y }
  let m := m.write self { m self with z := (m self).z - (m other).z }
  (m, self)

/-- Embeds `operator*=(const Vector3 &other)` -/
def mulAssign [Mul T] (m : Memory (Vector3 T)) (self other : Addr) :
    Memory (Vector3 T) × Addr :=
  let m := m.write self { m self with x := (m self).x * (m other).x }
  let m := m.write self { m self with y := (m self).y * (m other).y }
  let m := m.write self { m self with z := (m self).z * (m other).z }
  (m, self)

/-- Embeds `operator/=(const Vector3 &other)` -/
def divAssign [Div T] (m : Memory (Vector3 T)) (self other : Addr) :
    Memory (Vector3 T) × Addr :=
  let m := m.write self { m self with x := (m self).x / (m other).x }
  let m := m.write self { m self with y := (m self).y / (m other).y }
  let m := m.write self { m self with z := (m self).z / (m other).z }
  (m, self)

/-! ### `Vector3`: division over a scalar type whose `operator/` can fail

`sdiv` is the scalar `operator/` of `T`. -/

/-- Embeds `operator/(const Vector3 &other)` over a fallible scalar division. -/
def divChecked {E : Type} (sdiv : T → T → Except E T) (self other : Vector3 T) :
    Except E (Vector3 T) := do
  let x ← sdiv self.x other.x
  let y ← sdiv self.y other.y
  let z ← sdiv self.z other.z
  pure ⟨x, y, z⟩

/-- Embeds `operator/(T scalar)` over a fallible scalar division. -/
def divScalarChecked {E : Type} (sdiv : T → T → Except E T) (self : Vector3 T) (scalar : T) :
    Except E (Vector3 T) := do
  let x ← sdiv self.x scalar
  let y ← sdiv self.y scalar
  let z ← sdiv self.z scalar
  pure ⟨x, y, z⟩

/-- Embeds `operator/=(const Vector3 &other)` over a fallible scalar division. -/
def divAssignChecked {E : Type} (sdiv : T → T → Except E T) (m : Memory (Vector3 T))
    (self other : Addr) : Except E (Memory (Vector3 T) × Addr) := do
  let x ← sdiv (m self).x (m other).x
  let m := m.write self { m self with x := x }
  let y ← sdiv (m self).y (m other).y
  let m := m.write self { m self with y := y }
  let z ← sdiv (m self).z (m other).z
  let m := m.write self { m self with z := z }
  pure (m, self)

/-- Embeds `normalized()` over a fallible scalar division. -/
def normalizedChecked {E : Type} [Add T] [Mul T] [Zero T] [DecidableEq T]
    (sdiv : T → T → Except E T) (sqrt : T → T) (self : Vector3 T) : Except E (Vector3 T) :=
  let mag := self.magnitude sqrt
  if mag = 0 then pure (ofScalar 0)
  else self.divScalarChecked sdiv mag

/-- Embeds `normalize(vector)` over a fallible scalar division. -/
def normalizeChecked {E : Type} [Add T] [Mul T] [Zero T] [DecidableEq T]
    (sdiv : T → T → Except E T) (sqrt : T → T) (vector : Vector3 T) : Except E (Vector3 T) :=
  vector.normalizedChecked sdiv sqrt

/-- Embeds `angle(a, b)` over a fallible scalar division. -/
def angleChecked {E : Type} [Add T] [Mul T] [Zero T] [One T] [Neg T] [DecidableEq T] [LT T]
    [DecidableRel (fun a b : T => a < b)] (sdiv : T → T → Except E T) (sqrt acos : T → T)
    (a b : Vector3 T) : Except E T := do
  let na ← a.normalizedChecked sdiv sqrt
  let nb ← b.normalizedChecked sdiv sqrt
  let dotProduct := dot na nb
  let dotProduct := std.clamp dotProduct (-1) 1
  pure (acos dotProduct)

/-- The statement `v[index] = t`, an assignment through the mutable `operator[]`: the vector
afterwards, or the exception `operator[]` throws. -/
def assignIndex (self : Vector3 T) (index : Int) (t : T) : Except Exception (Vector3 T) := do
  let ref ← self.indexMut index
  pure (self.store ref t)

end Vector3

/-! ## `Vector4` -/

/-- Embeds `class Vector4`: members `T x, y, z, w;` -/
structure Vector4 (T : Type) where
  x : T
  y : T
  z : T
  w : T
  deriving DecidableEq

namespace Vector4

variable {T : Type}

/-- Embeds `Vector4()` -/
def default [Zero T] : Vector4 T := ⟨0, 0, 0, 0⟩

/-- Embeds `Vector4(const T scalar)` -/
def ofScalar (scalar : T) : Vector4 T := ⟨scalar, scalar, scalar, scalar⟩

/-- Embeds `operator+(const Vector4 &other)` -/
def add [Add T] (self other : Vector4 T) : Vector4 T :=
  ⟨self.x + other.x, self.y + other.y, self.z + other.z, self.w + other.w⟩

/-- Embeds `operator-(const Vector4 &other)` -/
def sub [Sub T] (self other : Vector4 T) : Vector4 T :=
  ⟨self.x - other.x, self.y - other.y, self.z - other.z, self.w - other.w⟩

/-- Embeds `operator*(const Vector4 &other)` -/
def mul [Mul T] (self other : Vector4 T) : Vector4 T :=
  ⟨self.x * other.x, self.y * other.y, self.z * other.z, self.w * other.w⟩

/-- Embeds `operator/(const Vector4 &other)` -/
def div [Div T] (self other : Vector4 T) : Vector4 T :=
  ⟨self.x / other.x, self.y / other.y, self.z / other.z, self.w / other.w⟩

/-- Embeds `operator+(T scalar)` -/
def addScalar [Add T] (self : Vector4 T) (scalar : T) : Vector4 T :=
  ⟨self.x + scalar, self.y + scalar, self.z + scalar, self.w + scalar⟩

/-- Embeds `operator-(T scalar)` -/
def subScalar [Sub T] (self : Vector4 T) (scalar : T) : Vector4 T :=
  ⟨self.x - scalar, self.y - scalar, self.z - scalar, self.w - scalar⟩

/-- Embeds `operator*(T scalar)` -/
def mulScalar [Mul T] (self : Vector4 T) (scalar : T) : Vector4 T :=
  ⟨self.x * scalar, self.y * scalar, self.z * scalar, self.w * scalar⟩

/-- Embeds `operator/(T scalar)` -/
def divScalar [Div T] (self : Vector4 T) (scalar : T) : Vector4 T :=
  ⟨self.x / scalar, self.y / scalar, self.z / scalar, self.w / scalar⟩

/-- Unary `operator+()` -/
def pos (self : Vector4 T) : Vector4 T := self

/-- Unary `operator-()` -/
def neg [Neg T] (self : Vector4 T) : Vector4 T := ⟨-self.x, -self.y, -self.z, -self.w⟩

/-- Embeds `operator==(const Vector4 &other)` -/
def eq [DecidableEq T] (self other : Vector4 T) : Bool :=
  decide (self.x = other.x) && decide (self.y = other.y) && decide (self.z = other.z) &&
    decide (self.w = other.w)

/-- Embeds `operator!=(const Vector4 &other)` -/
def ne [DecidableEq T] (self other : Vector4 T) : Bool := !(self.eq other)

/-- The members of a `Vector4`, the targets of a `T&` into it. -/
inductive Field where
  | x
  | y
  | z
  | w
  deriving DecidableEq

/-- Reading through a reference. -/
def load (self : Vector4 T) : Field → T
  | .x => self.x
  | .y => self.y
  | .z => self.z
  | .w => self.w

/-- Writing through a reference. -/
def store (self : Vector4 T) (f : Field) (t : T) : Vector4 T :=
  match f with
  | .x => { self with x := t }
  | .y => { self with y := t }
  | .z => { self with z := t }
  | .w => { self with w := t }

/-- The members in declaration order (`T x, y, z, w;`). -/
def components (self : Vector4 T) : List T := [self.x, self.y, self.z, self.w]

/-- Embeds `T &operator[](int index)` -/
def indexMut (_self : Vector4 T) (index : Int) : Except Exception Field :=
  if index = 0 then .ok .x
  else if index = 1 then .ok .y
  else if index = 2 then .ok .z
  else if index = 3 then .ok .w
  else .error (.out_of_range "Vector4 index out of range")

/-- Embeds `const T &operator[](int index) const` -/
def index (self : Vector4 T) (index : Int) : Except Exception T :=
  if index = 0 then .ok self.x
  else if index = 1 then .ok self.y
  else if index = 2 then .ok self.z
  else if index = 3 then .ok self.w
  else .error (.out_of_range "Vector4 index out of range")

/-- Embeds `magnitude()` -/
def magnitude [Add T] [Mul T] (sqrt : T → T) (self : Vector4 T) : T :=
  sqrt (self.x * self.x + self.y * self.y + self.z * self.z + self.w * self.w)

/-- Embeds `normalized()` -/
def normalized [Add T] [Mul T] [Div T] [Zero T] [DecidableEq T] (sqrt : T → T)
    (self : Vector4 T) : Vector4 T :=
  let mag := self.magnitude sqrt
  if mag = 0 then ofScalar 0
  else self.divScalar mag

/-- Embeds `sqrMagnitude()` -/
def sqrMagnitude [Add T] [Mul T] (self : Vector4 T) : T :=
  self.x * self.x + self.y * self.y + self.z * self.z + self.w * self.w

/-- Embeds `zero()` -/
def zero [Zero T] : Vector4 T := ⟨0, 0, 0, 0⟩

/-- Embeds `one()` -/
def one [One T] : Vector4 T := ⟨1, 1, 1, 1⟩

/-- Embeds `dot(a, b)` -/
def dot [Add T] [Mul T] (a b : Vector4 T) : T :=
  a.x * b.x + a.y * b.y + a.z * b.z + a.w * b.w

/-- Embeds `angle(a, b)` -/
def angle [Add T] [Mul T] [Div T] [Zero T] [One T] [Neg T] [DecidableEq T] [LT T]
    [DecidableRel (fun a b : T => a < b)] (sqrt acos : T → T) (a b : Vector4 T) : T :=
  let dotProduct := dot (a.normalized sqrt) (b.normalized sqrt)
  let dotProduct := std.clamp dotProduct (-1) 1
  acos dotProduct

/-- Embeds `distance(a, b)` -/
def distance [Add T] [Sub T] [Mul T] (sqrt : T → T) (a b : Vector4 T) : T :=
  (a.sub b).magnitude sqrt

/-- Embeds `lerp(a, b, t)` -/
def lerp [Add T] [Sub T] [Mul T] (a b : Vector4 T) (t : T) : Vector4 T :=
  a.add ((b.sub a).mulScalar t)

/-- Embeds `reflect(vector, normal)` -/
def reflect [Add T] [Sub T] [Mul T] [OfNat T 2] (vector normal : Vector4 T) : Vector4 T :=
  let dotProduct := dot vector normal
  vector.sub (normal.mulScalar (2 * dotProduct))

/-- Embeds `min(a, b)` -/
def min [LT T] [DecidableRel (fun a b : T => a < b)] (a b : Vector4 T) : Vector4 T :=
  ⟨std.min a.x b.x, std.min a.y b.y, std.min a.z b.z, std.min a.w b.w⟩

/-- Embeds `max(a, b)` -/
def max [LT T] [DecidableRel (fun a b : T => a < b)] (a b : Vector4 T) : Vector4 T :=
  ⟨std.max a.x b.x, std.max a.y b.y, std.max a.z b.z, std.max a.w b.w⟩

/-- Embeds `clamp(vector, minVec, maxVec)` -/
def clamp [LT T] [DecidableRel (fun a b : T => a < b)] (vector minVec maxVec : Vector4 T) :
    Vector4 T :=
  ⟨std.clamp vector.x minVec.x maxVec.x,
   std.clamp vector.y minVec.y maxVec.y,
   std.clamp vector.z minVec.z maxVec.z,
   std.clamp vector.w minVec.w maxVec.w⟩

/-- Embeds `normalize(vector)` -/
def normalize [Add T] [Mul T] [Div T] [Zero T] [DecidableEq T] (sqrt : T → T)
    (vector : Vector4 T) : Vector4 T :=
  vector.normalized sqrt

/-! ### `Vector4`: compound assignment on objects in memory

`self` is the address of `*this` and `other` the address of the argument (the two may be the
same object); the result is the memory after the call and the address the returned
`Vector4 &` refers to.  The scalar `x += e` is `x = x + e`. -/

/-- Embeds `operator+=(const Vector4 &other)` -/
def addAssign [Add T] (m : Memory (Vector4 T)) (self other : Addr) :
    Memory (Vector4 T) × Addr :=
  let m := m.write self { m self with x := (m self).x + (m other).x }
  let m := m.write self { m self with y := (m self).y + (m other).y }
  let m := m.write self { m self with z := (m self).z + (m other).z }
  let m := m.write self { m self with w := (m self).w + (m other).w }
  (m, self)

/-- Embeds `operator-=(const Vector4 &other)` -/
def subAssign [Sub T] (m : Memory (Vector4 T)) (self other : Addr) :
    Memory (Vector4 T) × Addr :=
  let m := m.write self { m self with x := (m self).x - (m other).x }
  let m := m.write self { m self with y := (m self).y - (m other).y }
  let m := m.write self { m self with z := (m self).z - (m other).z }
  let m := m.write self { m self with w := (m self).w - (m other).w }
  (m, self)

/-- Embeds `operator*=(const Vector4 &other)` -/
def mulAssign [Mul T] (m : Memory (Vector4 T)) (self other : Addr) :
    Memory (Vector4 T) × Addr :=
  let m := m.write self { m self with x := (m self).x * (m other).x }
  let m := m.write self { m self with y := (m self).y * (m other).y }
  let m := m.write self { m self with z := (m self).z * (m other).z }
  let m := m.write self { m self with w := (m self).w * (m other).w }
  (m, self)

/-- Embeds `operator/=(const Vector4 &other)` -/
def divAssign [Div T] (m : Memory (Vector4 T)) (self other : Addr) :
    Memory (Vector4 T) × Addr :=
  let m := m.write self { m self with x := (m self).x / (m other).x }
  let m := m.write self { m self with y := (m self).y / (m other).y }
  let m := m.write self { m self with z := (m self).z / (m other).z }
  let m := m.write self { m self with w := (m self).w / (m other).w }
  (m, self)

/-! ### `Vector4`: division over a scalar type whose `operator/` can fail

`sdiv` is the scalar `operator/` of `T`. -/

/-- Embeds `operator/(const Vector4 &other)` over a fallible scalar division. -/
def divChecked {E : Type} (sdiv : T → T → Except E T) (self other : Vector4 T) :
    Except E (Vector4 T) := do
  let x ← sdiv self.x other.x
  let y ← sdiv self.y other.y
  let z ← sdiv self.z other.z
  let w ← sdiv self.w other.w
  pure ⟨x, y, z, w⟩

/-- Embeds `operator/(T scalar)` over a fallible scalar division. -/
def divScalarChecked {E : Type} (sdiv : T → T → Except E T) (self : Vector4 T) (scalar : T) :
    Except E (Vector4 T) := do
  let x ← sdiv self.x scalar
  let y ← sdiv self.y scalar
  let z ← sdiv self.z scalar
  let w ← sdiv self.w scalar
  pure ⟨x, y, z, w⟩

/-- Embeds `operator/=(const Vector4 &other)` over a fallible scalar division. -/
def divAssignChecked {E : Type} (sdiv : T → T → Except E T) (m : Memory (Vector4 T))
    (self other : Addr) : Except E (Memory (Vector4 T) × Addr) := do
  let x ← sdiv (m self).x (m other).x
  let m := m.write self { m self with x := x }
  let y ← sdiv (m self).y (m other).y
  let m := m.write self { m self with y := y }
  let z ← sdiv (m self).z (m other).z
  let m := m.write self { m self with z := z }
  let w ← sdiv (m self).w (m other).w
  let m := m.write self { m self with w := w }
  pure (m, self)

/-- Embeds `normalized()` over a fallible scalar division. -/
def normalizedChecked {E : Type} [Add T] [Mul T] [Zero T] [DecidableEq T]
    (sdiv : T → T → Except E T) (sqrt : T → T) (self : Vector4 T) : Except E (Vector4 T) :=
  let mag := self.magnitude sqrt
  if mag = 0 then pure (ofScalar 0)
  else self.divScalarChecked sdiv mag

/-- Embeds `normalize(vector)` over a fallible scalar division. -/
def normalizeChecked {E : Type} [Add T] [Mul T] [Zero T] [DecidableEq T]
    (sdiv : T → T → Except E T) (sqrt : T → T) (vector : Vector4 T) : Except E (Vector4 T) :=
  vector.normalizedChecked sdiv sqrt

/-- Embeds `angle(a, b)` over a fallible scalar division. -/
def angleChecked {E : Type} [Add T] [Mul T] [Zero T] [One T] [Neg T] [DecidableEq T] [LT T]
    [DecidableRel (fun a b : T => a < b)] (sdiv : T → T → Except E T) (sqrt acos : T → T)
    (a b : Vector4 T) : Except E T := do
  let na ← a.normalizedChecked sdiv sqrt
  let nb ← b.normalizedChecked sdiv sqrt
  let dotProduct := dot na nb
  let dotProduct := std.clamp dotProduct (-1) 1
  pure (acos dotProduct)

/-- The statement `v[index] = t`, an assignment through the mutable `operator[]`: the vector
afterwards, or the exception `operator[]` throws. -/
def assignIndex (self : Vector4 T) (index : Int) (t : T) : Except Exception (Vector4 T) := do
  let ref ← self.indexMut index
  pure (self.store ref t)

end Vector4

end lumina

/-! # Theorems -/

namespace lumina

/-! ## Indexed access -/

/-- C1: for `Vector2`, `Vector3` and `Vector4` and every `int` index `i`, the read-only and the
mutable `operator[]` succeed exactly when `0 ≤ i ≤ N-1`, and then give the `i`-th member in
declaration order (the mutable one a reference to it); for every other index both fail with
`std::out_of_range` and return nothing. -/
theorem operator_index_in_range_iff {T : Type} (v2 : Vector2 T) (v3 : Vector3 T)
    (v4 : Vector4 T) (i : Int) :
    ((0 ≤ i ∧ i ≤ 1 →
        ∃ c, v2.components[i.toNat]? = some c ∧ v2.index i = .ok c ∧
          ∃ f, v2.indexMut i = .ok f ∧ v2.load f = c) ∧
      (¬ (0 ≤ i ∧ i ≤ 1) →
        v2.index i = .error (.out_of_range "Vector2 index out of range") ∧
        v2.indexMut i = .error (.out_of_range "Vector2 index out of range"))) ∧
    ((0 ≤ i ∧ i ≤ 2 →
        ∃ c, v3.components[i.toNat]? = some c ∧ v3.index i = .ok c ∧
          ∃ f, v3.indexMut i = .ok f ∧ v3.load f = c) ∧
      (¬ (0 ≤ i ∧ i ≤ 2) →
        v3.index i = .error (.out_of_range "Vector3 index out of range") ∧
        v3.indexMut i = .error (.out_of_range "Vector3 index out of range"))) ∧
    ((0 ≤ i ∧ i ≤ 3 →
        ∃ c, v4.components[i.toNat]? = some c ∧ v4.index i = .ok c ∧
          ∃ f, v4.indexMut i = .ok f ∧ v4.load f = c) ∧
      (¬ (0 ≤ i ∧ i ≤ 3) →
        v4.index i = .error (.out_of_range "Vector4 index out of range") ∧
        v4.indexMut i = .error (.out_of_range "Vector4 index out of range"))) := by
  refine ⟨⟨?_, ?_⟩, ⟨?_, ?_⟩, ⟨?_, ?_⟩⟩
  · rintro ⟨h0, h1⟩
    have hi : i = 0 ∨ i = 1 := by omega
    rcases hi with rfl | rfl
    · exact ⟨v2.x, rfl, rfl, .x, rfl, rfl⟩
    · exact ⟨v2.y, rfl, rfl, .y, rfl, rfl⟩
  · intro h
    have h0 : i ≠ 0 := by omega
    have h1 : i ≠ 1 := by omega
    simp [Vector2.index, Vector2.indexMut, h0, h1]
  · rintro ⟨h0, h1⟩
    have hi : i = 0 ∨ i = 1 ∨ i = 2 := by omega
    rcases hi with rfl | rfl | rfl
    · exact ⟨v3.x, rfl, rfl, .x, rfl, rfl⟩
    · exact ⟨v3.y, rfl, rfl, .y, rfl, rfl⟩
    · exact ⟨v3.z, rfl, rfl, .z, rfl, rfl⟩
  · intro h
    have h0 : i ≠ 0 := by omega
    have h1 : i ≠ 1 := by omega
    have h2 : i ≠ 2 := by omega
    simp [Vector3.index, Vector3.indexMut, h0, h1, h2]
  · rintro ⟨h0, h1⟩
    have hi : i = 0 ∨ i = 1 ∨ i = 2 ∨ i = 3 := by omega
    rcases hi with rfl | rfl | rfl | rfl
    · exact ⟨v4.x, rfl, rfl, .x, rfl, rfl⟩
    · exact ⟨v4.y, rfl, rfl, .y, rfl, rfl⟩
    · exact ⟨v4.z, rfl, rfl, .z, rfl, rfl⟩
    · exact ⟨v4.w, rfl, rfl, .w, rfl, rfl⟩
  · intro h
    have h0 : i ≠ 0 := by omega
    have h1 : i ≠ 1 := by omega
    have h2 : i ≠ 2 := by omega
    have h3 : i ≠ 3 := by omega
    simp [Vector4.index, Vector4.indexMut, h0, h1, h2, h3]

/-- Witness for C1 on integer vectors: index `-1` is rejected by `Vector2`, index `3` (`= N`) is
rejected by `Vector3`, and index `3` (`= N-1`) of a `Vector4` is its last member. -/
theorem operator_index_in_range_iff_witness :
    ((Vector2.mk (10 : Int) 20).index (-1)
        = .error (.out_of_range "Vector2 index out of range") ∧
      (Vector2.mk (10 : Int) 20).indexMut (-1)
        = .error (.out_of_range "Vector2 index out of range")) ∧
    ((Vector3.mk (10 : Int) 20 30).index 3
        = .error (.out_of_range "Vector3 index out of range") ∧
      (Vector3.mk (10 : Int) 20 30).indexMut 3
        = .error (.out_of_range "Vector3 index out of range")) ∧
    (∃ c, (Vector4.mk (10 : Int) 20 30 40).components[(3 : Int).toNat]? = some c ∧
      (Vector4.mk (10 : Int) 20 30 40).index 3 = .ok c ∧
      ∃ f, (Vector4.mk (10 : Int) 20 30 40).indexMut 3 = .ok f ∧
        (Vector4.mk (10 : Int) 20 30 40).load f = c) :=
  ⟨(operator_index_in_range_iff (Vector2.mk (10 : Int) 20) (Vector3.mk 10 20 30)
      (Vector4.mk 10 20 30 40) (-1)).1.2 (by decide),
   (operator_index_in_range_iff (Vector2.mk (10 : Int) 20) (Vector3.mk 10 20 30)
      (Vector4.mk 10 20 30 40) 3).2.1.2 (by decide),
   (operator_index_in_range_iff (Vector2.mk (10 : Int) 20) (Vector3.mk 10 20 30)
      (Vector4.mk 10 20 30 40) 3).2.2.1 (by decide)⟩

/-! ## Normalisation and magnitude -/

/-- C2: in each dimension `normalized()` is the all-zero vector when `magnitude()` is exactly `0`
and `v / magnitude()` (the vector-by-scalar division) otherwise; the static `normalize(v)` is
`v.normalized()`; and `normalize(zero()) == zero()` for every scalar type in which `0 * 0`,
`0 + 0` and `sqrt(0)` are `0`. -/
theorem normalized_spec {T : Type} [Add T] [Mul T] [Div T] [Zero T] [DecidableEq T]
    (sqrt : T → T) (v2 : Vector2 T) (v3 : Vector3 T) (v4 : Vector4 T) :
    ((v2.magnitude sqrt = 0 → v2.normalized sqrt = ⟨0, 0⟩) ∧
      (v2.magnitude sqrt ≠ 0 → v2.normalized sqrt = v2.divScalar (v2.magnitude sqrt)) ∧
      Vector2.normalize sqrt v2 = v2.normalized sqrt ∧
      ((0 : T) * 0 = 0 → (0 : T) + 0 = 0 → sqrt 0 = 0 →
        (Vector2.normalize sqrt Vector2.zero).eq Vector2.zero = true)) ∧
    ((v3.magnitude sqrt = 0 → v3.normalized sqrt = ⟨0, 0, 0⟩) ∧
      (v3.magnitude sqrt ≠ 0 → v3.normalized sqrt = v3.divScalar (v3.magnitude sqrt)) ∧
      Vector3.normalize sqrt v3 = v3.normalized sqrt ∧
      ((0 : T) * 0 = 0 → (0 : T) + 0 = 0 → sqrt 0 = 0 →
        (Vector3.normalize sqrt Vector3.zero).eq Vector3.zero = true)) ∧
    ((v4.magnitude sqrt = 0 → v4.normalized sqrt = ⟨0, 0, 0, 0⟩) ∧
      (v4.magnitude sqrt ≠ 0 → v4.normalized sqrt = v4.divScalar (v4.magnitude sqrt)) ∧
      Vector4.normalize sqrt v4 = v4.normalized sqrt ∧
      ((0 : T) * 0 = 0 → (0 : T) + 0 = 0 → sqrt 0 = 0 →
        (Vector4.normalize sqrt Vector4.zero).eq Vector4.zero = true)) := by
  refine ⟨⟨?_, ?_, rfl, ?_⟩, ⟨?_, ?_, rfl, ?_⟩, ⟨?_, ?_, rfl, ?_⟩⟩
  · intro h
    simp [Vector2.normalized, Vector2.ofScalar, h]
  · intro h
    simp [Vector2.normalized, h]
  · intro hm ha hs
    have hmag : (Vector2.zero : Vector2 T).magnitude sqrt = 0 := by
      simp [Vector2.magnitude, Vector2.zero, hm, ha, hs]
    have hn : Vector2.normalize sqrt (Vector2.zero : Vector2 T) = Vector2.zero := by
      show (if Vector2.magnitude sqrt Vector2.zero = 0 then _ else _) = _
      rw [if_pos hmag]
      rfl
    simp [hn, Vector2.eq]
  · intro h
    simp [Vector3.normalized, Vector3.ofScalar, h]
  · intro h
    simp [Vector3.normalized, h]
  · intro hm ha hs
    have hmag : (Vector3.zero : Vector3 T).magnitude sqrt = 0 := by
      simp [Vector3.magnitude, Vector3.zero, hm, ha, hs]
    have hn : Vector3.normalize sqrt (Vector3.zero : Vector3 T) = Vector3.zero := by
      show (if Vector3.magnitude sqrt Vector3.zero = 0 then _ else _) = _
      rw [if_pos hmag]
      rfl
    simp [hn, Vector3.eq]
  · intro h
    simp [Vector4.normalized, Vector4.ofScalar, h]
  · intro h
    simp [Vector4.normalized, h]
  · intro hm ha hs
    have hmag : (Vector4.zero : Vector4 T).magnitude sqrt = 0 := by
      simp [Vector4.magnitude, Vector4.zero, hm, ha, hs]
    have hn : Vector4.normalize sqrt (Vector4.zero : Vector4 T) = Vector4.zero := by
      show (if Vector4.magnitude sqrt Vector4.zero = 0 then _ else _) = _
      rw [if_pos hmag]
      rfl
    simp [hn, Vector4.eq]


/-- Witness for C2 over the reals: `(3, 4)` has magnitude `5`, so it is divided by it; the zero
`Vector3` has magnitude `0`; and `normalize(zero()) == zero()` in each dimension. -/
theorem normalized_spec_witness :
    (Vector2.mk (3 : ℝ) 4).normalized Real.sqrt
        = (Vector2.mk (3 : ℝ) 4).divScalar ((Vector2.mk (3 : ℝ) 4).magnitude Real.sqrt) ∧
    (Vector3.zero : Vector3 ℝ).normalized Real.sqrt = ⟨0, 0, 0⟩ ∧
    (Vector2.normalize Real.sqrt Vector2.zero).eq (Vector2.zero : Vector2 ℝ) = true ∧
    (Vector3.normalize Real.sqrt Vector3.zero).eq (Vector3.zero : Vector3 ℝ) = true ∧
    (Vector4.normalize Real.sqrt Vector4.zero).eq (Vector4.zero : Vector4 ℝ) = true :=
  ⟨(normalized_spec Real.sqrt (Vector2.mk (3 : ℝ) 4) Vector3.zero Vector4.zero).1.2.1
      (by simp only [Vector2.magnitude, ne_eq, Real.sqrt_ne_zero']; norm_num),
   (normalized_spec Real.sqrt (Vector2.mk (3 : ℝ) 4) Vector3.zero Vector4.zero).2.1.1
      (by simp [Vector3.magnitude, Vector3.zero]),
   (normalized_spec Real.sqrt (Vector2.mk (3 : ℝ) 4) Vector3.zero Vector4.zero).1.2.2.2
      (mul_zero 0) (add_zero 0) Real.sqrt_zero,
   (normalized_spec Real.sqrt (Vector2.mk (3 : ℝ) 4) Vector3.zero Vector4.zero).2.1.2.2.2
      (mul_zero 0) (add_zero 0) Real.sqrt_zero,
   (normalized_spec Real.sqrt (Vector2.mk (3 : ℝ) 4) Vector3.zero Vector4.zero).2.2.2.2.2
      (mul_zero 0) (add_zero 0) Real.sqrt_zero⟩

/-- Dividing each term of a positive sum of squares by the square of its root gives a sum
whose root is `1`: the scalar fact behind `magnitude(normalize(v)) = 1`. -/
theorem sqrt_scaled_eq_one (s q : ℝ) (hs : 0 < s)
    (hq : q = s / (Real.sqrt s * Real.sqrt s)) : Real.sqrt q = 1 := by
  rw [hq, Real.mul_self_sqrt hs.le, div_self hs.ne', Real.sqrt_one]

/-- C3: over the reals, a vector of dimension 2, 3 or 4 with a non-zero component is normalised
to a vector of magnitude `1`. -/
theorem magnitude_normalize_eq_one (v2 : Vector2 ℝ) (v3 : Vector3 ℝ) (v4 : Vector4 ℝ) :
    ((v2.x ≠ 0 ∨ v2.y ≠ 0) →
      (Vector2.normalize Real.sqrt v2).magnitude Real.sqrt = 1) ∧
    ((v3.x ≠ 0 ∨ v3.y ≠ 0 ∨ v3.z ≠ 0) →
      (Vector3.normalize Real.sqrt v3).magnitude Real.sqrt = 1) ∧
    ((v4.x ≠ 0 ∨ v4.y ≠ 0 ∨ v4.z ≠ 0 ∨ v4.w ≠ 0) →
      (Vector4.normalize Real.sqrt v4).magnitude Real.sqrt = 1) := by
  refine ⟨?_, ?_, ?_⟩
  · intro h
    have hs : 0 < v2.x * v2.x + v2.y * v2.y := by
      rcases h with h | h
      · have := mul_self_pos.2 h
        linarith [mul_self_nonneg v2.y]
      · have := mul_self_pos.2 h
        linarith [mul_self_nonneg v2.x]
    have hm : Vector2.magnitude Real.sqrt v2 ≠ 0 := (Real.sqrt_pos.2 hs).ne'
    show ((if Vector2.magnitude Real.sqrt v2 = 0 then _ else _) : Vector2 ℝ).magnitude _ = 1
    rw [if_neg hm]
    exact sqrt_scaled_eq_one _ _ hs (by simp only [Vector2.divScalar, Vector2.magnitude]; ring)
  · intro h
    have hs : 0 < v3.x * v3.x + v3.y * v3.y + v3.z * v3.z := by
      rcases h with h | h | h
      · have := mul_self_pos.2 h
        linarith [mul_self_nonneg v3.y, mul_self_nonneg v3.z]
      · have := mul_self_pos.2 h
        linarith [mul_self_nonneg v3.x, mul_self_nonneg v3.z]
      · have := mul_self_pos.2 h
        linarith [mul_self_nonneg v3.x, mul_self_nonneg v3.y]
    have hm : Vector3.magnitude Real.sqrt v3 ≠ 0 := (Real.sqrt_pos.2 hs).ne'
    show ((if Vector3.magnitude Real.sqrt v3 = 0 then _ else _) : Vector3 ℝ).magnitude _ = 1
    rw [if_neg hm]
    exact sqrt_scaled_eq_one _ _ hs (by simp only [Vector3.divScalar, Vector3.magnitude]; ring)
  · intro h
    have hs : 0 < v4.x * v4.x + v4.y * v4.y + v4.z * v4.z + v4.w * v4.w := by
      rcases h with h | h | h | h
      · have := mul_self_pos.2 h
        linarith [mul_self_nonneg v4.y, mul_self_nonneg v4.z, mul_self_nonneg v4.w]
      · have := mul_self_pos.2 h
        linarith [mul_self_nonneg v4.x, mul_self_nonneg v4.z, mul_self_nonneg v4.w]
      · have := mul_self_pos.2 h
        linarith [mul_self_nonneg v4.x, mul_self_nonneg v4.y, mul_self_nonneg v4.w]
      · have := mul_self_pos.2 h
        linarith [mul_self_nonneg v4.x, mul_self_nonneg v4.y, mul_self_nonneg v4.z]
    have hm : Vector4.magnitude Real.sqrt v4 ≠ 0 := (Real.sqrt_pos.2 hs).ne'
    show ((if Vector4.magnitude Real.sqrt v4 = 0 then _ else _) : Vector4 ℝ).magnitude _ = 1
    rw [if_neg hm]
    exact sqrt_scaled_eq_one _ _ hs (by simp only [Vector4.divScalar, Vector4.magnitude]; ring)

/-- Witness for C3: `(3, 4)`, `(0, 0, 2)` and `(0, -1, 0, 0)` are normalised to magnitude `1`. -/
theorem magnitude_normalize_eq_one_witness :
    (Vector2.normalize Real.sqrt (Vector2.mk 3 4)).magnitude Real.sqrt = 1 ∧
    (Vector3.normalize Real.sqrt (Vector3.mk 0 0 2)).magnitude Real.sqrt = 1 ∧
    (Vector4.normalize Real.sqrt (Vector4.mk 0 (-1) 0 0)).magnitude Real.sqrt = 1 :=
  ⟨(magnitude_normalize_eq_one (Vector2.mk 3 4) (Vector3.mk 0 0 2) (Vector4.mk 0 (-1) 0 0)).1
      (Or.inl (by norm_num)),
   (magnitude_normalize_eq_one (Vector2.mk 3 4) (Vector3.mk 0 0 2) (Vector4.mk 0 (-1) 0 0)).2.1
      (Or.inr (Or.inr (by norm_num))),
   (magnitude_normalize_eq_one (Vector2.mk 3 4) (Vector3.mk 0 0 2) (Vector4.mk 0 (-1) 0 0)).2.2
      (Or.inr (Or.inl (by norm_num)))⟩


/-! ## Clamp -/

/-- With `lo ≤ hi`, `std::clamp(v, lo, hi)` lies between `lo` and `hi`. -/
theorem clamp_between {T : Type} [LinearOrder T] (v lo hi : T) (h : lo ≤ hi) :
    lo ≤ std.clamp v lo hi ∧ std.clamp v lo hi ≤ hi := by
  unfold std.clamp
  split_ifs with h1 h2
  · exact ⟨le_refl lo, h⟩
  · exact ⟨h, le_refl hi⟩
  · exact ⟨not_lt.1 h1, not_lt.1 h2⟩

/-- C4 as stated fails: for `v = (4, 4)`, `lo = (5, 0)`, `hi = (3, 9)` the `x` bounds are crossed
(`lo.x = 5 > hi.x = 3`) and the clamped `x` is not between them. -/
theorem clamp_within_bounds_counterexample :
    ¬ ((Vector2.mk (5 : Int) 0).x
          ≤ (Vector2.clamp (Vector2.mk 4 4) (Vector2.mk 5 0) (Vector2.mk 3 9)).x ∧
        (Vector2.clamp (Vector2.mk 4 4) (Vector2.mk 5 0) (Vector2.mk 3 9)).x
          ≤ (Vector2.mk (3 : Int) 9).x ∧
        (Vector2.mk (5 : Int) 0).y
          ≤ (Vector2.clamp (Vector2.mk 4 4) (Vector2.mk 5 0) (Vector2.mk 3 9)).y ∧
        (Vector2.clamp (Vector2.mk 4 4) (Vector2.mk 5 0) (Vector2.mk 3 9)).y
          ≤ (Vector2.mk (3 : Int) 9).y) := by
  decide

/-- C4, amended: over a linearly ordered scalar type, every component of `clamp(v, lo, hi)` whose
lower bound does not exceed its upper bound is at least that component of `lo` and at most that
component of `hi`. -/
theorem clamp_within_bounds {T : Type} [LinearOrder T] (a2 lo2 hi2 : Vector2 T)
    (a3 lo3 hi3 : Vector3 T) (a4 lo4 hi4 : Vector4 T) :
    ((lo2.x ≤ hi2.x →
        lo2.x ≤ (Vector2.clamp a2 lo2 hi2).x ∧ (Vector2.clamp a2 lo2 hi2).x ≤ hi2.x) ∧
      (lo2.y ≤ hi2.y →
        lo2.y ≤ (Vector2.clamp a2 lo2 hi2).y ∧ (Vector2.clamp a2 lo2 hi2).y ≤ hi2.y)) ∧
    ((lo3.x ≤ hi3.x →
        lo3.x ≤ (Vector3.clamp a3 lo3 hi3).x ∧ (Vector3.clamp a3 lo3 hi3).x ≤ hi3.x) ∧
      (lo3.y ≤ hi3.y →
        lo3.y ≤ (Vector3.clamp a3 lo3 hi3).y ∧ (Vector3.clamp a3 lo3 hi3).y ≤ hi3.y) ∧
      (lo3.z ≤ hi3.z →
        lo3.z ≤ (Vector3.clamp a3 lo3 hi3).z ∧ (Vector3.clamp a3 lo3 hi3).z ≤ hi3.z)) ∧
    ((lo4.x ≤ hi4.x →
        lo4.x ≤ (Vector4.clamp a4 lo4 hi4).x ∧ (Vector4.clamp a4 lo4 hi4).x ≤ hi4.x) ∧
      (lo4.y ≤ hi4.y →
        lo4.y ≤ (Vector4.clamp a4 lo4 hi4).y ∧ (Vector4.clamp a4 lo4 hi4).y ≤ hi4.y) ∧
      (lo4.z ≤ hi4.z →
        lo4.z ≤ (Vector4.clamp a4 lo4 hi4).z ∧ (Vector4.clamp a4 lo4 hi4).z ≤ hi4.z) ∧
      (lo4.w ≤ hi4.w →
        lo4.w ≤ (Vector4.clamp a4 lo4 hi4).w ∧ (Vector4.clamp a4 lo4 hi4).w ≤ hi4.w)) :=
  ⟨⟨clamp_between _ _ _, clamp_between _ _ _⟩,
   ⟨clamp_between _ _ _, clamp_between _ _ _, clamp_between _ _ _⟩,
   ⟨clamp_between _ _ _, clamp_between _ _ _, clamp_between _ _ _, clamp_between _ _ _⟩⟩

/-- Witness for amended C4 on integer vectors: a value below, inside and above the bounds. -/
theorem clamp_within_bounds_witness :
    ((1 : Int) ≤ (Vector2.clamp (Vector2.mk 0 7) (Vector2.mk 1 2) (Vector2.mk 5 6)).x ∧
      (Vector2.clamp (Vector2.mk 0 7) (Vector2.mk 1 2) (Vector2.mk 5 6)).x ≤ (5 : Int)) ∧
    ((2 : Int) ≤ (Vector3.clamp (Vector3.mk 0 7 3) (Vector3.mk 1 2 3) (Vector3.mk 5 6 3)).y ∧
      (Vector3.clamp (Vector3.mk 0 7 3) (Vector3.mk 1 2 3) (Vector3.mk 5 6 3)).y ≤ (6 : Int)) ∧
    ((-4 : Int) ≤
        (Vector4.clamp (Vector4.mk 0 7 3 (-2)) (Vector4.mk 1 2 3 (-4)) (Vector4.mk 5 6 3 8)).w ∧
      (Vector4.clamp (Vector4.mk 0 7 3 (-2)) (Vector4.mk 1 2 3 (-4)) (Vector4.mk 5 6 3 8)).w
        ≤ (8 : Int)) :=
  ⟨(clamp_within_bounds (Vector2.mk (0 : Int) 7) (Vector2.mk 1 2) (Vector2.mk 5 6)
      (Vector3.mk 0 7 3) (Vector3.mk 1 2 3) (Vector3.mk 5 6 3)
      (Vector4.mk 0 7 3 (-2)) (Vector4.mk 1 2 3 (-4)) (Vector4.mk 5 6 3 8)).1.1 (by decide),
   (clamp_within_bounds (Vector2.mk (0 : Int) 7) (Vector2.mk 1 2) (Vector2.mk 5 6)
      (Vector3.mk 0 7 3) (Vector3.mk 1 2 3) (Vector3.mk 5 6 3)
      (Vector4.mk 0 7 3 (-2)) (Vector4.mk 1 2 3 (-4)) (Vector4.mk 5 6 3 8)).2.1.2.1 (by decide),
   (clamp_within_bounds (Vector2.mk (0 : Int) 7) (Vector2.mk 1 2) (Vector2.mk 5 6)
      (Vector3.mk 0 7 3) (Vector3.mk 1 2 3) (Vector3.mk 5 6 3)
      (Vector4.mk 0 7 3 (-2)) (Vector4.mk 1 2 3 (-4)) (Vector4.mk 5 6 3 8)).2.2.2.2.2 (by decide)⟩

/-! ## Algebraic identities -/

/-- C5: over a ring, `lerp(a, b, t)` is `a + (b - a) * t` for every `t` (no clamping of `t`),
`lerp(a, b, 0) == a` and `lerp(a, b, 1) == b`, in each dimension. -/
theorem lerp_endpoints {T : Type} [Ring T] [DecidableEq T] (a2 b2 : Vector2 T)
    (a3 b3 : Vector3 T) (a4 b4 : Vector4 T) (t : T) :
    (Vector2.lerp a2 b2 t = a2.add ((b2.sub a2).mulScalar t) ∧
      (Vector2.lerp a2 b2 0).eq a2 = true ∧ (Vector2.lerp a2 b2 1).eq b2 = true) ∧
    (Vector3.lerp a3 b3 t = a3.add ((b3.sub a3).mulScalar t) ∧
      (Vector3.lerp a3 b3 0).eq a3 = true ∧ (Vector3.lerp a3 b3 1).eq b3 = true) ∧
    (Vector4.lerp a4 b4 t = a4.add ((b4.sub a4).mulScalar t) ∧
      (Vector4.lerp a4 b4 0).eq a4 = true ∧ (Vector4.lerp a4 b4 1).eq b4 = true) := by
  refine ⟨⟨rfl, ?_, ?_⟩, ⟨rfl, ?_, ?_⟩, ⟨rfl, ?_, ?_⟩⟩ <;>
    simp [Vector2.lerp, Vector2.add, Vector2.sub, Vector2.mulScalar, Vector2.eq,
      Vector3.lerp, Vector3.add, Vector3.sub, Vector3.mulScalar, Vector3.eq,
      Vector4.lerp, Vector4.add, Vector4.sub, Vector4.mulScalar, Vector4.eq]

/-- C6: `a + zero() == a` and `a * one() == a` for the Vector-Vector operators, in each
dimension, whenever `0` is neutral for the scalar `+` and `1` for the scalar `*`. -/
theorem add_zero_mul_one {T : Type} [AddZeroClass T] [MulOneClass T] [DecidableEq T]
    (a2 : Vector2 T) (a3 : Vector3 T) (a4 : Vector4 T) :
    ((a2.add Vector2.zero).eq a2 = true ∧ (a2.mul Vector2.one).eq a2 = true) ∧
    ((a3.add Vector3.zero).eq a3 = true ∧ (a3.mul Vector3.one).eq a3 = true) ∧
    ((a4.add Vector4.zero).eq a4 = true ∧ (a4.mul Vector4.one).eq a4 = true) := by
  refine ⟨⟨?_, ?_⟩, ⟨?_, ?_⟩, ⟨?_, ?_⟩⟩ <;>
    simp [Vector2.add, Vector2.mul, Vector2.zero, Vector2.one, Vector2.eq,
      Vector3.add, Vector3.mul, Vector3.zero, Vector3.one, Vector3.eq,
      Vector4.add, Vector4.mul, Vector4.zero, Vector4.one, Vector4.eq]

/-- C7: `a - b == -(b - a)` in each dimension, with binary Vector-Vector subtraction on both
sides and unary minus on the right, over any additive group of scalars. -/
theorem sub_eq_neg_sub {T : Type} [AddGroup T] [DecidableEq T] (a2 b2 : Vector2 T)
    (a3 b3 : Vector3 T) (a4 b4 : Vector4 T) :
    (a2.sub b2).eq (b2.sub a2).neg = true ∧
    (a3.sub b3).eq (b3.sub a3).neg = true ∧
    (a4.sub b4).eq (b4.sub a4).neg = true := by
  refine ⟨?_, ?_, ?_⟩ <;>
    simp [Vector2.sub, Vector2.neg, Vector2.eq, Vector3.sub, Vector3.neg, Vector3.eq,
      Vector4.sub, Vector4.neg, Vector4.eq]

/-- C8: `dot(a, b) == dot(b, a)` in each dimension, for any commutative scalar multiplication. -/
theorem dot_comm {T : Type} [Add T] [CommMagma T] (a2 b2 : Vector2 T) (a3 b3 : Vector3 T)
    (a4 b4 : Vector4 T) :
    Vector2.dot a2 b2 = Vector2.dot b2 a2 ∧
    Vector3.dot a3 b3 = Vector3.dot b3 a3 ∧
    Vector4.dot a4 b4 = Vector4.dot b4 a4 := by
  refine ⟨?_, ?_, ?_⟩
  · simp only [Vector2.dot, mul_comm a2.x, mul_comm a2.y]
  · simp only [Vector3.dot, mul_comm a3.x, mul_comm a3.y, mul_comm a3.z]
  · simp only [Vector4.dot, mul_comm a4.x, mul_comm a4.y, mul_comm a4.z, mul_comm a4.w]

/-- C9: `v.sqrMagnitude() == dot(v, v)` in each dimension, for every scalar type. -/
theorem sqrMagnitude_eq_dot_self {T : Type} [Add T] [Mul T] (v2 : Vector2 T) (v3 : Vector3 T)
    (v4 : Vector4 T) :
    v2.sqrMagnitude = Vector2.dot v2 v2 ∧
    v3.sqrMagnitude = Vector3.dot v3 v3 ∧
    v4.sqrMagnitude = Vector4.dot v4 v4 :=
  ⟨rfl, rfl, rfl⟩

/-- C10: over the reals `v.magnitude() == sqrt(v.sqrMagnitude())` in each dimension, and
`Vector2(3, 4).magnitude() == 5`. -/
theorem magnitude_eq_sqrt_sqrMagnitude (v2 : Vector2 ℝ) (v3 : Vector3 ℝ) (v4 : Vector4 ℝ) :
    v2.magnitude Real.sqrt = Real.sqrt v2.sqrMagnitude ∧
    v3.magnitude Real.sqrt = Real.sqrt v3.sqrMagnitude ∧
    v4.magnitude Real.sqrt = Real.sqrt v4.sqrMagnitude ∧
    (Vector2.mk (3 : ℝ) 4).magnitude Real.sqrt = 5 := by
  refine ⟨rfl, rfl, rfl, ?_⟩
  have h : (3 : ℝ) * 3 + 4 * 4 = 5 * 5 := by norm_num
  show Real.sqrt ((3 : ℝ) * 3 + 4 * 4) = 5
  rw [h, Real.sqrt_mul_self (by norm_num)]

/-! ## Cross product -/

/-- C11: `cross(a, b)` is `Vector3(a.y*b.z - a.z*b.y, a.z*b.x - a.x*b.z, a.x*b.y - a.y*b.x)` for
every scalar type, and over a ring `cross(right(), up()) == forward()`. -/
theorem cross_formula_right_up {T : Type} [Ring T] [DecidableEq T] (a b : Vector3 T) :
    Vector3.cross a b
        = Vector3.mk (a.y * b.z - a.z * b.y) (a.z * b.x - a.x * b.z) (a.x * b.y - a.y * b.x) ∧
    (Vector3.cross (Vector3.right : Vector3 T) Vector3.up).eq Vector3.forward = true := by
  refine ⟨rfl, ?_⟩
  simp [Vector3.cross, Vector3.right, Vector3.up, Vector3.forward, Vector3.eq]

/-! ## Scalar overloads -/

/-- C12: for `+`, `-`, `*` and `/` the Vector-scalar operator gives the same vector as the
Vector-Vector operator on `v` and the broadcast `Vector(s)`, in each dimension; for `/` also
over a scalar division that can fail, where the two either fail alike or return the same. -/
theorem scalar_op_eq_broadcast_op {T E : Type} [Add T] [Sub T] [Mul T] [Div T]
    (sdiv : T → T → Except E T) (v2 : Vector2 T) (v3 : Vector3 T) (v4 : Vector4 T) (s : T) :
    (v2.addScalar s = v2.add (Vector2.ofScalar s) ∧
      v2.subScalar s = v2.sub (Vector2.ofScalar s) ∧
      v2.mulScalar s = v2.mul (Vector2.ofScalar s) ∧
      v2.divScalar s = v2.div (Vector2.ofScalar s) ∧
      v2.divScalarChecked sdiv s = v2.divChecked sdiv (Vector2.ofScalar s)) ∧
    (v3.addScalar s = v3.add (Vector3.ofScalar s) ∧
      v3.subScalar s = v3.sub (Vector3.ofScalar s) ∧
      v3.mulScalar s = v3.mul (Vector3.ofScalar s) ∧
      v3.divScalar s = v3.div (Vector3.ofScalar s) ∧
      v3.divScalarChecked sdiv s = v3.divChecked sdiv (Vector3.ofScalar s)) ∧
    (v4.addScalar s = v4.add (Vector4.ofScalar s) ∧
      v4.subScalar s = v4.sub (Vector4.ofScalar s) ∧
      v4.mulScalar s = v4.mul (Vector4.ofScalar s) ∧
      v4.divScalar s = v4.div (Vector4.ofScalar s) ∧
      v4.divScalarChecked sdiv s = v4.divChecked sdiv (Vector4.ofScalar s)) :=
  ⟨⟨rfl, rfl, rfl, rfl, rfl⟩, ⟨rfl, rfl, rfl, rfl, rfl⟩, ⟨rfl, rfl, rfl, rfl, rfl⟩⟩

/-! ## Compound assignment -/

/-- C13: for `+=`, `-=`, `*=` and `/=` in each dimension, with `a` and `b` the addresses of two
vector objects in memory `m`: after `a op= b` the object at `a` holds `a op b` computed from the
values before the call (also when `b` is `a` itself), the returned reference is to `a`, and
every object other than `a`, so `b` when it is another object, is unchanged. -/
theorem compound_assign_eq_binary_op {T : Type} [Add T] [Sub T] [Mul T] [Div T]
    (m2 : Memory (Vector2 T)) (m3 : Memory (Vector3 T)) (m4 : Memory (Vector4 T))
    (a b : Addr) :
    ((Vector2.addAssign m2 a b).1 a = (m2 a).add (m2 b) ∧
      (Vector2.addAssign m2 a b).2 = a ∧
      ∀ c, c ≠ a → (Vector2.addAssign m2 a b).1 c = m2 c) ∧
    ((Vector2.subAssign m2 a b).1 a = (m2 a).sub (m2 b) ∧
      (Vector2.subAssign m2 a b).2 = a ∧
      ∀ c, c ≠ a → (Vector2.subAssign m2 a b).1 c = m2 c) ∧
    ((Vector2.mulAssign m2 a b).1 a = (m2 a).mul (m2 b) ∧
      (Vector2.mulAssign m2 a b).2 = a ∧
      ∀ c, c ≠ a → (Vector2.mulAssign m2 a b).1 c = m2 c) ∧
    ((Vector2.divAssign m2 a b).1 a = (m2 a).div (m2 b) ∧
      (Vector2.divAssign m2 a b).2 = a ∧
      ∀ c, c ≠ a → (Vector2.divAssign m2 a b).1 c = m2 c) ∧
    ((Vector3.addAssign m3 a b).1 a = (m3 a).add (m3 b) ∧
      (Vector3.addAssign m3 a b).2 = a ∧
      ∀ c, c ≠ a → (Vector3.addAssign m3 a b).1 c = m3 c) ∧
    ((Vector3.subAssign m3 a b).1 a = (m3 a).sub (m3 b) ∧
      (Vector3.subAssign m3 a b).2 = a ∧
      ∀ c, c ≠ a → (Vector3.subAssign m3 a b).1 c = m3 c) ∧
    ((Vector3.mulAssign m3 a b).1 a = (m3 a).mul (m3 b) ∧
      (Vector3.mulAssign m3 a b).2 = a ∧
      ∀ c, c ≠ a → (Vector3.mulAssign m3 a b).1 c = m3 c) ∧
    ((Vector3.divAssign m3 a b).1 a = (m3 a).div (m3 b) ∧
      (Vector3.divAssign m3 a b).2 = a ∧
      ∀ c, c ≠ a → (Vector3.divAssign m3 a b).1 c = m3 c) ∧
    ((Vector4.addAssign m4 a b).1 a = (m4 a).add (m4 b) ∧
      (Vector4.addAssign m4 a b).2 = a ∧
      ∀ c, c ≠ a → (Vector4.addAssign m4 a b).1 c = m4 c) ∧
    ((Vector4.subAssign m4 a b).1 a = (m4 a).sub (m4 b) ∧
      (Vector4.subAssign m4 a b).2 = a ∧
      ∀ c, c ≠ a → (Vector4.subAssign m4 a b).1 c = m4 c) ∧
    ((Vector4.mulAssign m4 a b).1 a = (m4 a).mul (m4 b) ∧
      (Vector4.mulAssign m4 a b).2 = a ∧
      ∀ c, c ≠ a → (Vector4.mulAssign m4 a b).1 c = m4 c) ∧
    ((Vector4.divAssign m4 a b).1 a = (m4 a).div (m4 b) ∧
      (Vector4.divAssign m4 a b).2 = a ∧
      ∀ c, c ≠ a → (Vector4.divAssign m4 a b).1 c = m4 c) := by
  refine ⟨⟨?_, rfl, ?_⟩, ⟨?_, rfl, ?_⟩, ⟨?_, rfl, ?_⟩, ⟨?_, rfl, ?_⟩,
    ⟨?_, rfl, ?_⟩, ⟨?_, rfl, ?_⟩, ⟨?_, rfl, ?_⟩, ⟨?_, rfl, ?_⟩,
    ⟨?_, rfl, ?_⟩, ⟨?_, rfl, ?_⟩, ⟨?_, rfl, ?_⟩, ⟨?_, rfl, ?_⟩⟩
  · by_cases h : b = a <;> simp [Vector2.addAssign, Memory.write, Vector2.add, h]
  · intro c hc
    simp [Vector2.addAssign, Memory.write, hc]
  · by_cases h : b = a <;> simp [Vector2.subAssign, Memory.write, Vector2.sub, h]
  · intro c hc
    simp [Vector2.subAssign, Memory.write, hc]
  · by_cases h : b = a <;> simp [Vector2.mulAssign, Memory.write, Vector2.mul, h]
  · intro c hc
    simp [Vector2.mulAssign, Memory.write, hc]
  · by_cases h : b = a <;> simp [Vector2.divAssign, Memory.write, Vector2.div, h]
  · intro c hc
    simp [Vector2.divAssign, Memory.write, hc]
  · by_cases h : b = a <;> simp [Vector3.addAssign, Memory.write, Vector3.add, h]
  · intro c hc
    simp [Vector3.addAssign, Memory.write, hc]
  · by_cases h : b = a <;> simp [Vector3.subAssign, Memory.write, Vector3.sub, h]
  · intro c hc
    simp [Vector3.subAssign, Memory.write, hc]
  · by_cases h : b = a <;> simp [Vector3.mulAssign, Memory.write, Vector3.mul, h]
  · intro c hc
    simp [Vector3.mulAssign, Memory.write, hc]
  · by_cases h : b = a <;> simp [Vector3.divAssign, Memory.write, Vector3.div, h]
  · intro c hc
    simp [Vector3.divAssign, Memory.write, hc]
  · by_cases h : b = a <;> simp [Vector4.addAssign, Memory.write, Vector4.add, h]
  · intro c hc
    simp [Vector4.addAssign, Memory.write, hc]
  · by_cases h : b = a <;> simp [Vector4.subAssign, Memory.write, Vector4.sub, h]
  · intro c hc
    simp [Vector4.subAssign, Memory.write, hc]
  · by_cases h : b = a <;> simp [Vector4.mulAssign, Memory.write, Vector4.mul, h]
  · intro c hc
    simp [Vector4.mulAssign, Memory.write, hc]
  · by_cases h : b = a <;> simp [Vector4.divAssign, Memory.write, Vector4.div, h]
  · intro c hc
    simp [Vector4.divAssign, Memory.write, hc]

/-- Witness for C13 on integer vectors: with `(1, 2)` at address `0` and `(10, 20)` at address
`1`, after `+=` on addresses `0` and `1` the object at `1` is still `(10, 20)`; likewise for a
`Vector3` under `*=` and a `Vector4` under `-=`. -/
theorem compound_assign_eq_binary_op_witness :
    (Vector2.addAssign (fun p => if p = 0 then Vector2.mk (1 : Int) 2 else Vector2.mk 10 20)
        0 1).1 1 = Vector2.mk 10 20 ∧
    (Vector3.mulAssign (fun p => if p = 0 then Vector3.mk (1 : Int) 2 3 else Vector3.mk 10 20 30)
        0 1).1 1 = Vector3.mk 10 20 30 ∧
    (Vector4.subAssign
        (fun p => if p = 0 then Vector4.mk (1 : Int) 2 3 4 else Vector4.mk 10 20 30 40)
        0 1).1 1 = Vector4.mk 10 20 30 40 :=
  ⟨(compound_assign_eq_binary_op
      (fun p => if p = 0 then Vector2.mk (1 : Int) 2 else Vector2.mk 10 20)
      (fun p => if p = 0 then Vector3.mk (1 : Int) 2 3 else Vector3.mk 10 20 30)
      (fun p => if p = 0 then Vector4.mk (1 : Int) 2 3 4 else Vector4.mk 10 20 30 40)
      0 1).1.2.2 1 (by decide),
   (compound_assign_eq_binary_op
      (fun p => if p = 0 then Vector2.mk (1 : Int) 2 else Vector2.mk 10 20)
      (fun p => if p = 0 then Vector3.mk (1 : Int) 2 3 else Vector3.mk 10 20 30)
      (fun p => if p = 0 then Vector4.mk (1 : Int) 2 3 4 else Vector4.mk 10 20 30 40)
      0 1).2.2.2.2.2.2.1.2.2 1 (by decide),
   (compound_assign_eq_binary_op
      (fun p => if p = 0 then Vector2.mk (1 : Int) 2 else Vector2.mk 10 20)
      (fun p => if p = 0 then Vector3.mk (1 : Int) 2 3 else Vector3.mk 10 20 30)
      (fun p => if p = 0 then Vector4.mk (1 : Int) 2 3 4 else Vector4.mk 10 20 30 40)
      0 1).2.2.2.2.2.2.2.2.2.1.2.2 1 (by decide)⟩

/-! ## Division over a scalar type whose division can fail -/

/-- For `Vector2`, `a /= b` fails exactly when `a / b` does, whatever the scalar division. -/
theorem vector2_divAssign_error_iff {T E : Type} (sdiv : T → T → Except E T)
    (m : Memory (Vector2 T)) (p q : Addr) :
    (∃ e, Vector2.divAssignChecked sdiv m p q = .error e) ↔
      (∃ e, Vector2.divChecked sdiv (m p) (m q) = .error e) := by
  by_cases hpq : q = p
  · subst hpq
    cases hsx : sdiv (m q).x (m q).x with
    | error e =>
      simp [Vector2.divAssignChecked, Vector2.divChecked, Memory.write, bind, Except.bind, pure,
        Except.pure, hsx]
    | ok qx =>
      cases hsy : sdiv (m q).y (m q).y with
      | error e =>
        simp [Vector2.divAssignChecked, Vector2.divChecked, Memory.write, bind, Except.bind, pure,
          Except.pure, hsx, hsy]
      | ok qy =>
        simp [Vector2.divAssignChecked, Vector2.divChecked, Memory.write, bind, Except.bind, pure,
          Except.pure, hsx, hsy]
  · cases hsx : sdiv (m p).x (m q).x with
    | error e =>
      simp [Vector2.divAssignChecked, Vector2.divChecked, Memory.write, bind, Except.bind, pure,
        Except.pure, hsx, hpq]
    | ok qx =>
      cases hsy : sdiv (m p).y (m q).y with
      | error e =>
        simp [Vector2.divAssignChecked, Vector2.divChecked, Memory.write, bind, Except.bind, pure,
          Except.pure, hsx, hsy, hpq]
      | ok qy =>
        simp [Vector2.divAssignChecked, Vector2.divChecked, Memory.write, bind, Except.bind, pure,
          Except.pure, hsx, hsy, hpq]

/-- For `Vector2`, when every scalar division succeeds `a /= b` leaves the quotients in `a` and
every other object as it was. -/
theorem vector2_divAssign_ok {T E : Type} (sdiv : T → T → Except E T)
    (m : Memory (Vector2 T)) (p q : Addr) (x y : T) :
    sdiv (m p).x (m q).x = .ok x →
    sdiv (m p).y (m q).y = .ok y →
    ∃ m', Vector2.divAssignChecked sdiv m p q = .ok (m', p) ∧ m' p = ⟨x, y⟩ ∧
      ∀ c, c ≠ p → m' c = m c := by
  intro hx hy
  by_cases hpq : q = p
  · subst hpq
    simp +contextual [Vector2.divAssignChecked, Memory.write, bind, Except.bind, pure, Except.pure,
      hx, hy]
  · simp +contextual [Vector2.divAssignChecked, Memory.write, bind, Except.bind, pure, Except.pure,
    hx, hy, hpq]

/-- For `Vector3`, `a /= b` fails exactly when `a / b` does, whatever the scalar division. -/
theorem vector3_divAssign_error_iff {T E : Type} (sdiv : T → T → Except E T)
    (m : Memory (Vector3 T)) (p q : Addr) :
    (∃ e, Vector3.divAssignChecked sdiv m p q = .error e) ↔
      (∃ e, Vector3.divChecked sdiv (m p) (m q) = .error e) := by
  by_cases hpq : q = p
  · subst hpq
    cases hsx : sdiv (m q).x (m q).x with
    | error e =>
      simp [Vector3.divAssignChecked, Vector3.divChecked, Memory.write, bind, Except.bind, pure,
        Except.pure, hsx]
    | ok qx =>
      cases hsy : sdiv (m q).y (m q).y with
      | error e =>
        simp [Vector3.divAssignChecked, Vector3.divChecked, Memory.write, bind, Except.bind, pure,
          Except.pure, hsx, hsy]
      | ok qy =>
        cases hsz : sdiv (m q).z (m q).z with
        | error e =>
          simp [Vector3.divAssignChecked, Vector3.divChecked, Memory.write, bind, Except.bind,
            pure, Except.pure, hsx, hsy, hsz]
        | ok qz =>
          simp [Vector3.divAssignChecked, Vector3.divChecked, Memory.write, bind, Except.bind,
            pure, Except.pure, hsx, hsy, hsz]
  · cases hsx : sdiv (m p).x (m q).x with
    | error e =>
      simp [Vector3.divAssignChecked, Vector3.divChecked, Memory.write, bind, Except.bind, pure,
        Except.pure, hsx, hpq]
    | ok qx =>
      cases hsy : sdiv (m p).y (m q).y with
      | error e =>
        simp [Vector3.divAssignChecked, Vector3.divChecked, Memory.write, bind, Except.bind, pure,
          Except.pure, hsx, hsy, hpq]
      | ok qy =>
        cases hsz : sdiv (m p).z (m q).z with
        | error e =>
          simp [Vector3.divAssignChecked, Vector3.divChecked, Memory.write, bind, Except.bind,
            pure, Except.pure, hsx, hsy, hsz, hpq]
        | ok qz =>
          simp [Vector3.divAssignChecked, Vector3.divChecked, Memory.write, bind, Except.bind,
            pure, Except.pure, hsx, hsy, hsz, hpq]

/-- For `Vector3`, when every scalar division succeeds `a /= b` leaves the quotients in `a` and
every other object as it was. -/
theorem vector3_divAssign_ok {T E : Type} (sdiv : T → T → Except E T)
    (m : Memory (Vector3 T)) (p q : Addr) (x y z : T) :
    sdiv (m p).x (m q).x = .ok x →
    sdiv (m p).y (m q).y = .ok y →
    sdiv (m p).z (m q).z = .ok z →
    ∃ m', Vector3.divAssignChecked sdiv m p q = .ok (m', p) ∧ m' p = ⟨x, y, z⟩ ∧
      ∀ c, c ≠ p → m' c = m c := by
  intro hx hy hzc
  by_cases hpq : q = p
  · subst hpq
    simp +contextual [Vector3.divAssignChecked, Memory.write, bind, Except.bind, pure, Except.pure,
      hx, hy, hzc]
  · simp +contextual [Vector3.divAssignChecked, Memory.write, bind, Except.bind, pure, Except.pure,
    hx, hy, hzc, hpq]

/-- For `Vector4`, `a /= b` fails exactly when `a / b` does, whatever the scalar division. -/
theorem vector4_divAssign_error_iff {T E : Type} (sdiv : T → T → Except E T)
    (m : Memory (Vector4 T)) (p q : Addr) :
    (∃ e, Vector4.divAssignChecked sdiv m p q = .error e) ↔
      (∃ e, Vector4.divChecked sdiv (m p) (m q) = .error e) := by
  by_cases hpq : q = p
  · subst hpq
    cases hsx : sdiv (m q).x (m q).x with
    | error e =>
      simp [Vector4.divAssignChecked, Vector4.divChecked, Memory.write, bind, Except.bind, pure,
        Except.pure, hsx]
    | ok qx =>
      cases hsy : sdiv (m q).y (m q).y with
      | error e =>
        simp [Vector4.divAssignChecked, Vector4.divChecked, Memory.write, bind, Except.bind, pure,
          Except.pure, hsx, hsy]
      | ok qy =>
        cases hsz : sdiv (m q).z (m q).z with
        | error e =>
          simp [Vector4.divAssignChecked, Vector4.divChecked, Memory.write, bind, Except.bind,
            pure, Except.pure, hsx, hsy, hsz]
        | ok qz =>
          cases hsw : sdiv (m q).w (m q).w with
          | error e =>
            simp [Vector4.divAssignChecked, Vector4.divChecked, Memory.write, bind, Except.bind,
              pure, Except.pure, hsx, hsy, hsz, hsw]
          | ok qw =>
            simp [Vector4.divAssignChecked, Vector4.divChecked, Memory.write, bind, Except.bind,
              pure, Except.pure, hsx, hsy, hsz, hsw]
  · cases hsx : sdiv (m p).x (m q).x with
    | error e =>
      simp [Vector4.divAssignChecked, Vector4.divChecked, Memory.write, bind, Except.bind, pure,
        Except.pure, hsx, hpq]
    | ok qx =>
      cases hsy : sdiv (m p).y (m q).y with
      | error e =>
        simp [Vector4.divAssignChecked, Vector4.divChecked, Memory.write, bind, Except.bind, pure,
          Except.pure, hsx, hsy, hpq]
      | ok qy =>
        cases hsz : sdiv (m p).z (m q).z with
        | error e =>
          simp [Vector4.divAssignChecked, Vector4.divChecked, Memory.write, bind, Except.bind,
            pure, Except.pure, hsx, hsy, hsz, hpq]
        | ok qz =>
          cases hsw : sdiv (m p).w (m q).w with
          | error e =>
            simp [Vector4.divAssignChecked, Vector4.divChecked, Memory.write, bind, Except.bind,
              pure, Except.pure, hsx, hsy, hsz, hsw, hpq]
          | ok qw =>
            simp [Vector4.divAssignChecked, Vector4.divChecked, Memory.write, bind, Except.bind,
              pure, Except.pure, hsx, hsy, hsz, hsw, hpq]

/-- For `Vector4`, when every scalar division succeeds `a /= b` leaves the quotients in `a` and
every other object as it was. -/
theorem vector4_divAssign_ok {T E : Type} (sdiv : T → T → Except E T)
    (m : Memory (Vector4 T)) (p q : Addr) (x y z w : T) :
    sdiv (m p).x (m q).x = .ok x →
    sdiv (m p).y (m q).y = .ok y →
    sdiv (m p).z (m q).z = .ok z →
    sdiv (m p).w (m q).w = .ok w →
    ∃ m', Vector4.divAssignChecked sdiv m p q = .ok (m', p) ∧ m' p = ⟨x, y, z, w⟩ ∧
      ∀ c, c ≠ p → m' c = m c := by
  intro hx hy hzc hw
  by_cases hpq : q = p
  · subst hpq
    simp +contextual [Vector4.divAssignChecked, Memory.write, bind, Except.bind, pure, Except.pure,
      hx, hy, hzc, hw]
  · simp +contextual [Vector4.divAssignChecked, Memory.write, bind, Except.bind, pure, Except.pure,
    hx, hy, hzc, hw, hpq]


/-- Over a scalar division that never fails, the fallible operators return what the total ones
do, in each dimension. -/
theorem checked_eq_total {T : Type} [Add T] [Mul T] [Div T] [Zero T] [DecidableEq T]
    (sqrt : T → T) (a2 b2 : Vector2 T) (a3 b3 : Vector3 T) (a4 b4 : Vector4 T) (s : T)
    (m2 : Memory (Vector2 T)) (m3 : Memory (Vector3 T)) (m4 : Memory (Vector4 T))
    (p q : Addr) :
    (Vector2.divChecked totalDiv a2 b2 = .ok (a2.div b2) ∧
      Vector2.divScalarChecked totalDiv a2 s = .ok (a2.divScalar s) ∧
      Vector2.divAssignChecked totalDiv m2 p q = .ok (Vector2.divAssign m2 p q) ∧
      Vector2.normalizedChecked totalDiv sqrt a2 = .ok (a2.normalized sqrt)) ∧
    (Vector3.divChecked totalDiv a3 b3 = .ok (a3.div b3) ∧
      Vector3.divScalarChecked totalDiv a3 s = .ok (a3.divScalar s) ∧
      Vector3.divAssignChecked totalDiv m3 p q = .ok (Vector3.divAssign m3 p q) ∧
      Vector3.normalizedChecked totalDiv sqrt a3 = .ok (a3.normalized sqrt)) ∧
    (Vector4.divChecked totalDiv a4 b4 = .ok (a4.div b4) ∧
      Vector4.divScalarChecked totalDiv a4 s = .ok (a4.divScalar s) ∧
      Vector4.divAssignChecked totalDiv m4 p q = .ok (Vector4.divAssign m4 p q) ∧
      Vector4.normalizedChecked totalDiv sqrt a4 = .ok (a4.normalized sqrt)) := by
  refine ⟨⟨rfl, rfl, rfl, ?_⟩, ⟨rfl, rfl, rfl, ?_⟩, ⟨rfl, rfl, rfl, ?_⟩⟩
  · simp only [Vector2.normalizedChecked, Vector2.normalized]
    split_ifs <;> rfl
  · simp only [Vector3.normalizedChecked, Vector3.normalized]
    split_ifs <;> rfl
  · simp only [Vector4.normalizedChecked, Vector4.normalized]
    split_ifs <;> rfl

/-- Division of `int` fails exactly on a zero divisor and on `INT_MIN / -1`. -/
theorem intDiv_error_iff (x y : Int) :
    (∃ e, intDiv x y = .error e) ↔ y = 0 ∨ (x = INT_MIN ∧ y = -1) := by
  unfold intDiv
  by_cases h0 : y = 0
  · simp [h0]
  · by_cases h1 : x = INT_MIN ∧ y = -1
    · simp [h0, h1]
    · simp [h0, h1]

/-- Division of `int` returns the truncated quotient when it does not fail. -/
theorem intDiv_ok (x y : Int) (h0 : y ≠ 0) (h1 : x ≠ INT_MIN ∨ y ≠ -1) :
    intDiv x y = .ok (x.tdiv y) := by
  unfold intDiv
  have h2 : ¬ (x = INT_MIN ∧ y = -1) := by
    rintro ⟨hx, hy⟩
    rcases h1 with h | h
    · exact h hx
    · exact h hy
  rw [if_neg h0, if_neg h2]

/-- Division of `int` stays within `int`: a quotient it returns for a dividend between
`INT_MIN` and `INT_MAX` lies between `INT_MIN` and `INT_MAX`. -/
theorem intDiv_in_range (x y q : Int) (hx : INT_MIN ≤ x ∧ x ≤ INT_MAX)
    (h : intDiv x y = .ok q) : INT_MIN ≤ q ∧ q ≤ INT_MAX := by
  unfold intDiv at h
  by_cases h0 : y = 0
  · simp [h0] at h
  by_cases h1 : x = INT_MIN ∧ y = -1
  · simp [h0, h1] at h
  rw [if_neg h0, if_neg h1] at h
  have hq : q = x.tdiv y := by injection h with h; exact h.symm
  have hn : q.natAbs = x.natAbs / y.natAbs := by rw [hq]; exact Int.natAbs_tdiv x y
  have hle : x.natAbs / y.natAbs ≤ x.natAbs := Nat.div_le_self _ _
  unfold INT_MIN INT_MAX at *
  by_cases hy : 2 ≤ y.natAbs
  · have h2 : x.natAbs / y.natAbs ≤ x.natAbs / 2 := Nat.div_le_div_left hy (by norm_num)
    omega
  · have hy1 : y = 1 ∨ y = -1 := by omega
    rcases hy1 with rfl | rfl
    · rw [Int.tdiv_one] at hq
      omega
    · have hneg : x.tdiv (-1) = -x := by rw [Int.tdiv_neg, Int.tdiv_one]
      rw [hneg] at hq
      omega

/-- For `Vector2`, `a / b` fails exactly when one of its scalar divisions fails, whatever the
scalar division. -/
theorem vector2_div_error_iff {T E : Type} (sdiv : T → T → Except E T) (a b : Vector2 T) :
    (∃ e, Vector2.divChecked sdiv a b = .error e) ↔
      (∃ e, sdiv a.x b.x = .error e) ∨ (∃ e, sdiv a.y b.y = .error e) := by
  cases hsx : sdiv a.x b.x with
  | error e => simp [Vector2.divChecked, bind, Except.bind, pure, Except.pure, hsx]
  | ok qx =>
    cases hsy : sdiv a.y b.y with
    | error e => simp [Vector2.divChecked, bind, Except.bind, pure, Except.pure, hsx, hsy]
    | ok qy =>
      simp [Vector2.divChecked, bind, Except.bind, pure, Except.pure, hsx, hsy]

/-- For `Vector2`, `a / s` fails exactly when one of its scalar divisions fails, whatever the
scalar division. -/
theorem vector2_divScalar_error_iff {T E : Type} (sdiv : T → T → Except E T)
    (a : Vector2 T) (s : T) :
    (∃ e, Vector2.divScalarChecked sdiv a s = .error e) ↔
      (∃ e, sdiv a.x s = .error e) ∨ (∃ e, sdiv a.y s = .error e) := by
  cases hsx : sdiv a.x s with
  | error e => simp [Vector2.divScalarChecked, bind, Except.bind, pure, Except.pure, hsx]
  | ok qx =>
    cases hsy : sdiv a.y s with
    | error e => simp [Vector2.divScalarChecked, bind, Except.bind, pure, Except.pure, hsx, hsy]
    | ok qy =>
      simp [Vector2.divScalarChecked, bind, Except.bind, pure, Except.pure, hsx, hsy]

/-- For `Vector3`, `a / b` fails exactly when one of its scalar divisions fails, whatever the
scalar division. -/
theorem vector3_div_error_iff {T E : Type} (sdiv : T → T → Except E T) (a b : Vector3 T) :
    (∃ e, Vector3.divChecked sdiv a b = .error e) ↔
      (∃ e, sdiv a.x b.x = .error e) ∨ (∃ e, sdiv a.y b.y = .error e) ∨
        (∃ e, sdiv a.z b.z = .error e) := by
  cases hsx : sdiv a.x b.x with
  | error e => simp [Vector3.divChecked, bind, Except.bind, pure, Except.pure, hsx]
  | ok qx =>
    cases hsy : sdiv a.y b.y with
    | error e => simp [Vector3.divChecked, bind, Except.bind, pure, Except.pure, hsx, hsy]
    | ok qy =>
      cases hsz : sdiv a.z b.z with
      | error e => simp [Vector3.divChecked, bind, Except.bind, pure, Except.pure, hsx, hsy, hsz]
      | ok qz =>
        simp [Vector3.divChecked, bind, Except.bind, pure, Except.pure, hsx, hsy, hsz]

/-- For `Vector3`, `a / s` fails exactly when one of its scalar divisions fails, whatever the
scalar division. -/
theorem vector3_divScalar_error_iff {T E : Type} (sdiv : T → T → Except E T)
    (a : Vector3 T) (s : T) :
    (∃ e, Vector3.divScalarChecked sdiv a s = .error e) ↔
      (∃ e, sdiv a.x s = .error e) ∨ (∃ e, sdiv a.y s = .error e) ∨
        (∃ e, sdiv a.z s = .error e) := by
  cases hsx : sdiv a.x s with
  | error e => simp [Vector3.divScalarChecked, bind, Except.bind, pure, Except.pure, hsx]
  | ok qx =>
    cases hsy : sdiv a.y s with
    | error e => simp [Vector3.divScalarChecked, bind, Except.bind, pure, Except.pure, hsx, hsy]
    | ok qy =>
      cases hsz : sdiv a.z s with
      | error e => simp [Vector3.divScalarChecked, bind, Except.bind, pure, Except.pure, hsx, hsy,
        hsz]
      | ok qz =>
        simp [Vector3.divScalarChecked, bind, Except.bind, pure, Except.pure, hsx, hsy, hsz]

/-- For `Vector4`, `a / b` fails exactly when one of its scalar divisions fails, whatever the
scalar division. -/
theorem vector4_div_error_iff {T E : Type} (sdiv : T → T → Except E T) (a b : Vector4 T) :
    (∃ e, Vector4.divChecked sdiv a b = .error e) ↔
      (∃ e, sdiv a.x b.x = .error e) ∨ (∃ e, sdiv a.y b.y = .error e) ∨
        (∃ e, sdiv a.z b.z = .error e) ∨ (∃ e, sdiv a.w b.w = .error e) := by
  cases hsx : sdiv a.x b.x with
  | error e => simp [Vector4.divChecked, bind, Except.bind, pure, Except.pure, hsx]
  | ok qx =>
    cases hsy : sdiv a.y b.y with
    | error e => simp [Vector4.divChecked, bind, Except.bind, pure, Except.pure, hsx, hsy]
    | ok qy =>
      cases hsz : sdiv a.z b.z with
      | error e => simp [Vector4.divChecked, bind, Except.bind, pure, Except.pure, hsx, hsy, hsz]
      | ok qz =>
        cases hsw : sdiv a.w b.w with
        | error e => simp [Vector4.divChecked, bind, Except.bind, pure, Except.pure, hsx, hsy, hsz,
          hsw]
        | ok qw =>
          simp [Vector4.divChecked, bind, Except.bind, pure, Except.pure, hsx, hsy, hsz, hsw]

/-- For `Vector4`, `a / s` fails exactly when one of its scalar divisions fails, whatever the
scalar division. -/
theorem vector4_divScalar_error_iff {T E : Type} (sdiv : T → T → Except E T)
    (a : Vector4 T) (s : T) :
    (∃ e, Vector4.divScalarChecked sdiv a s = .error e) ↔
      (∃ e, sdiv a.x s = .error e) ∨ (∃ e, sdiv a.y s = .error e) ∨ (∃ e, sdiv a.z s = .error e) ∨
        (∃ e, sdiv a.w s = .error e) := by
  cases hsx : sdiv a.x s with
  | error e => simp [Vector4.divScalarChecked, bind, Except.bind, pure, Except.pure, hsx]
  | ok qx =>
    cases hsy : sdiv a.y s with
    | error e => simp [Vector4.divScalarChecked, bind, Except.bind, pure, Except.pure, hsx, hsy]
    | ok qy =>
      cases hsz : sdiv a.z s with
      | error e => simp [Vector4.divScalarChecked, bind, Except.bind, pure, Except.pure, hsx, hsy,
        hsz]
      | ok qz =>
        cases hsw : sdiv a.w s with
        | error e => simp [Vector4.divScalarChecked, bind, Except.bind, pure, Except.pure, hsx,
          hsy, hsz, hsw]
        | ok qw =>
          simp [Vector4.divScalarChecked, bind, Except.bind, pure, Except.pure, hsx, hsy, hsz, hsw]

/-- C14 as stated fails for `Vector2<int>`: in `(INT_MIN, 6) / (-1, 3)` no component of the
divisor is zero, yet the division fails, because `INT_MIN / -1` overflows. -/
theorem division_fails_iff_zero_divisor_counterexample :
    (INT_MIN ≤ INT_MIN ∧ INT_MIN ≤ INT_MAX ∧ INT_MIN ≤ 6 ∧ 6 ≤ INT_MAX ∧
      INT_MIN ≤ -1 ∧ -1 ≤ INT_MAX ∧ INT_MIN ≤ 3 ∧ 3 ≤ INT_MAX) ∧
    ¬ ((∃ e, Vector2.divChecked intDiv (Vector2.mk INT_MIN 6) (Vector2.mk (-1) 3) = .error e) ↔
        ((Vector2.mk (-1 : Int) 3).x = 0 ∨ (Vector2.mk (-1 : Int) 3).y = 0)) := by
  refine ⟨by decide, ?_⟩
  intro h
  have hfail : ∃ e, Vector2.divChecked intDiv (Vector2.mk INT_MIN 6) (Vector2.mk (-1) 3)
      = .error e := ⟨.overflow, rfl⟩
  exact absurd (h.1 hfail) (by decide)

/-- C14, amended: the division operators make no check of their own.  For `int` scalars, whose
division fails on a zero divisor and on `INT_MIN / -1`, in each dimension: `a / b` fails exactly
when for some component the divisor is zero or the pair is `(INT_MIN, -1)`; `a / s` exactly when
`s` is zero, or `s` is `-1` and some component of `a` is `INT_MIN`; `a /= b` exactly when
`a / b` does; and when no scalar division fails each of them returns (for `/=`, leaves in `a`)
the vector of the truncated scalar quotients. -/
theorem int_division_fails_iff_scalar_division_fails (a2 b2 : Vector2 Int) (a3 b3 : Vector3 Int)
    (a4 b4 : Vector4 Int) (s : Int) (m2 : Memory (Vector2 Int)) (m3 : Memory (Vector3 Int))
    (m4 : Memory (Vector4 Int)) (p q : Addr) :
    (((∃ e, Vector2.divChecked intDiv a2 b2 = .error e) ↔
        (b2.x = 0 ∨ (a2.x = INT_MIN ∧ b2.x = -1)) ∨
        (b2.y = 0 ∨ (a2.y = INT_MIN ∧ b2.y = -1))) ∧
      ((∃ e, Vector2.divScalarChecked intDiv a2 s = .error e) ↔
        s = 0 ∨ (s = -1 ∧ (a2.x = INT_MIN ∨ a2.y = INT_MIN))) ∧
      ((∃ e, Vector2.divAssignChecked intDiv m2 p q = .error e) ↔
        ∃ e, Vector2.divChecked intDiv (m2 p) (m2 q) = .error e) ∧
      ((b2.x ≠ 0 ∧ (a2.x ≠ INT_MIN ∨ b2.x ≠ -1)) ∧
        (b2.y ≠ 0 ∧ (a2.y ≠ INT_MIN ∨ b2.y ≠ -1)) →
        Vector2.divChecked intDiv a2 b2
          = .ok ⟨a2.x.tdiv b2.x, a2.y.tdiv b2.y⟩) ∧
      (s ≠ 0 ∧ (s ≠ -1 ∨ (a2.x ≠ INT_MIN ∧ a2.y ≠ INT_MIN)) →
        Vector2.divScalarChecked intDiv a2 s
          = .ok ⟨a2.x.tdiv s, a2.y.tdiv s⟩) ∧
      (((m2 q).x ≠ 0 ∧ ((m2 p).x ≠ INT_MIN ∨ (m2 q).x ≠ -1)) ∧
        ((m2 q).y ≠ 0 ∧ ((m2 p).y ≠ INT_MIN ∨ (m2 q).y ≠ -1)) →
        ∃ m', Vector2.divAssignChecked intDiv m2 p q = .ok (m', p) ∧
          m' p = ⟨(m2 p).x.tdiv (m2 q).x,
            (m2 p).y.tdiv (m2 q).y⟩ ∧
          ∀ c, c ≠ p → m' c = m2 c)) ∧
    (((∃ e, Vector3.divChecked intDiv a3 b3 = .error e) ↔
        (b3.x = 0 ∨ (a3.x = INT_MIN ∧ b3.x = -1)) ∨
        (b3.y = 0 ∨ (a3.y = INT_MIN ∧ b3.y = -1)) ∨
        (b3.z = 0 ∨ (a3.z = INT_MIN ∧ b3.z = -1))) ∧
      ((∃ e, Vector3.divScalarChecked intDiv a3 s = .error e) ↔
        s = 0 ∨ (s = -1 ∧ (a3.x = INT_MIN ∨ a3.y = INT_MIN ∨ a3.z = INT_MIN))) ∧
      ((∃ e, Vector3.divAssignChecked intDiv m3 p q = .error e) ↔
        ∃ e, Vector3.divChecked intDiv (m3 p) (m3 q) = .error e) ∧
      ((b3.x ≠ 0 ∧ (a3.x ≠ INT_MIN ∨ b3.x ≠ -1)) ∧
        (b3.y ≠ 0 ∧ (a3.y ≠ INT_MIN ∨ b3.y ≠ -1)) ∧
        (b3.z ≠ 0 ∧ (a3.z ≠ INT_MIN ∨ b3.z ≠ -1)) →
        Vector3.divChecked intDiv a3 b3
          = .ok ⟨a3.x.tdiv b3.x, a3.y.tdiv b3.y, a3.z.tdiv b3.z⟩) ∧
      (s ≠ 0 ∧ (s ≠ -1 ∨ (a3.x ≠ INT_MIN ∧ a3.y ≠ INT_MIN ∧ a3.z ≠ INT_MIN)) →
        Vector3.divScalarChecked intDiv a3 s
          = .ok ⟨a3.x.tdiv s, a3.y.tdiv s, a3.z.tdiv s⟩) ∧
      (((m3 q).x ≠ 0 ∧ ((m3 p).x ≠ INT_MIN ∨ (m3 q).x ≠ -1)) ∧
        ((m3 q).y ≠ 0 ∧ ((m3 p).y ≠ INT_MIN ∨ (m3 q).y ≠ -1)) ∧
        ((m3 q).z ≠ 0 ∧ ((m3 p).z ≠ INT_MIN ∨ (m3 q).z ≠ -1)) →
        ∃ m', Vector3.divAssignChecked intDiv m3 p q = .ok (m', p) ∧
          m' p = ⟨(m3 p).x.tdiv (m3 q).x,
            (m3 p).y.tdiv (m3 q).y,
            (m3 p).z.tdiv (m3 q).z⟩ ∧
          ∀ c, c ≠ p → m' c = m3 c)) ∧
    (((∃ e, Vector4.divChecked intDiv a4 b4 = .error e) ↔
        (b4.x = 0 ∨ (a4.x = INT_MIN ∧ b4.x = -1)) ∨
        (b4.y = 0 ∨ (a4.y = INT_MIN ∧ b4.y = -1)) ∨
        (b4.z = 0 ∨ (a4.z = INT_MIN ∧ b4.z = -1)) ∨
        (b4.w = 0 ∨ (a4.w = INT_MIN ∧ b4.w = -1))) ∧
      ((∃ e, Vector4.divScalarChecked intDiv a4 s = .error e) ↔
        s = 0 ∨ (s = -1 ∧ (a4.x = INT_MIN ∨ a4.y = INT_MIN ∨ a4.z = INT_MIN ∨ a4.w = INT_MIN))) ∧
      ((∃ e, Vector4.divAssignChecked intDiv m4 p q = .error e) ↔
        ∃ e, Vector4.divChecked intDiv (m4 p) (m4 q) = .error e) ∧
      ((b4.x ≠ 0 ∧ (a4.x ≠ INT_MIN ∨ b4.x ≠ -1)) ∧
        (b4.y ≠ 0 ∧ (a4.y ≠ INT_MIN ∨ b4.y ≠ -1)) ∧
        (b4.z ≠ 0 ∧ (a4.z ≠ INT_MIN ∨ b4.z ≠ -1)) ∧
        (b4.w ≠ 0 ∧ (a4.w ≠ INT_MIN ∨ b4.w ≠ -1)) →
        Vector4.divChecked intDiv a4 b4
          = .ok ⟨a4.x.tdiv b4.x, a4.y.tdiv b4.y, a4.z.tdiv b4.z, a4.w.tdiv b4.w⟩) ∧
      (s ≠ 0 ∧ (s ≠ -1 ∨ (a4.x ≠ INT_MIN ∧ a4.y ≠ INT_MIN ∧ a4.z ≠ INT_MIN ∧ a4.w ≠ INT_MIN)) →
        Vector4.divScalarChecked intDiv a4 s
          = .ok ⟨a4.x.tdiv s, a4.y.tdiv s, a4.z.tdiv s, a4.w.tdiv s⟩) ∧
      (((m4 q).x ≠ 0 ∧ ((m4 p).x ≠ INT_MIN ∨ (m4 q).x ≠ -1)) ∧
        ((m4 q).y ≠ 0 ∧ ((m4 p).y ≠ INT_MIN ∨ (m4 q).y ≠ -1)) ∧
        ((m4 q).z ≠ 0 ∧ ((m4 p).z ≠ INT_MIN ∨ (m4 q).z ≠ -1)) ∧
        ((m4 q).w ≠ 0 ∧ ((m4 p).w ≠ INT_MIN ∨ (m4 q).w ≠ -1)) →
        ∃ m', Vector4.divAssignChecked intDiv m4 p q = .ok (m', p) ∧
          m' p = ⟨(m4 p).x.tdiv (m4 q).x,
            (m4 p).y.tdiv (m4 q).y,
            (m4 p).z.tdiv (m4 q).z,
            (m4 p).w.tdiv (m4 q).w⟩ ∧
          ∀ c, c ≠ p → m' c = m4 c)) := by
  refine ⟨⟨?_, ?_, ?_, ?_, ?_, ?_⟩, ⟨?_, ?_, ?_, ?_, ?_, ?_⟩, ⟨?_, ?_, ?_, ?_, ?_, ?_⟩⟩
  · rw [vector2_div_error_iff]
    simp only [intDiv_error_iff]
  · rw [vector2_divScalar_error_iff]
    simp only [intDiv_error_iff]
    tauto
  · exact vector2_divAssign_error_iff intDiv m2 p q
  · rintro ⟨⟨hx0, hx1⟩, ⟨hy0, hy1⟩⟩
    simp [Vector2.divChecked, bind, Except.bind, pure, Except.pure, intDiv_ok _ _ hx0 hx1,
      intDiv_ok _ _ hy0 hy1]
  · rintro ⟨h0, h1⟩
    have hx : a2.x ≠ INT_MIN ∨ s ≠ -1 := by tauto
    have hy : a2.y ≠ INT_MIN ∨ s ≠ -1 := by tauto
    simp [Vector2.divScalarChecked, bind, Except.bind, pure, Except.pure, intDiv_ok _ _ h0 hx,
      intDiv_ok _ _ h0 hy]
  · rintro ⟨⟨hx0, hx1⟩, ⟨hy0, hy1⟩⟩
    exact vector2_divAssign_ok intDiv m2 p q _ _ (intDiv_ok _ _ hx0 hx1) (intDiv_ok _ _ hy0 hy1)
  · rw [vector3_div_error_iff]
    simp only [intDiv_error_iff]
  · rw [vector3_divScalar_error_iff]
    simp only [intDiv_error_iff]
    tauto
  · exact vector3_divAssign_error_iff intDiv m3 p q
  · rintro ⟨⟨hx0, hx1⟩, ⟨hy0, hy1⟩, ⟨hz0, hz1⟩⟩
    simp [Vector3.divChecked, bind, Except.bind, pure, Except.pure, intDiv_ok _ _ hx0 hx1,
      intDiv_ok _ _ hy0 hy1, intDiv_ok _ _ hz0 hz1]
  · rintro ⟨h0, h1⟩
    have hx : a3.x ≠ INT_MIN ∨ s ≠ -1 := by tauto
    have hy : a3.y ≠ INT_MIN ∨ s ≠ -1 := by tauto
    have hz : a3.z ≠ INT_MIN ∨ s ≠ -1 := by tauto
    simp [Vector3.divScalarChecked, bind, Except.bind, pure, Except.pure, intDiv_ok _ _ h0 hx,
      intDiv_ok _ _ h0 hy, intDiv_ok _ _ h0 hz]
  · rintro ⟨⟨hx0, hx1⟩, ⟨hy0, hy1⟩, ⟨hz0, hz1⟩⟩
    exact vector3_divAssign_ok intDiv m3 p q _ _ _ (intDiv_ok _ _ hx0 hx1) (intDiv_ok _ _ hy0 hy1)
      (intDiv_ok _ _ hz0 hz1)
  · rw [vector4_div_error_iff]
    simp only [intDiv_error_iff]
  · rw [vector4_divScalar_error_iff]
    simp only [intDiv_error_iff]
    tauto
  · exact vector4_divAssign_error_iff intDiv m4 p q
  · rintro ⟨⟨hx0, hx1⟩, ⟨hy0, hy1⟩, ⟨hz0, hz1⟩, ⟨hw0, hw1⟩⟩
    simp [Vector4.divChecked, bind, Except.bind, pure, Except.pure, intDiv_ok _ _ hx0 hx1,
      intDiv_ok _ _ hy0 hy1, intDiv_ok _ _ hz0 hz1, intDiv_ok _ _ hw0 hw1]
  · rintro ⟨h0, h1⟩
    have hx : a4.x ≠ INT_MIN ∨ s ≠ -1 := by tauto
    have hy : a4.y ≠ INT_MIN ∨ s ≠ -1 := by tauto
    have hz : a4.z ≠ INT_MIN ∨ s ≠ -1 := by tauto
    have hw : a4.w ≠ INT_MIN ∨ s ≠ -1 := by tauto
    simp [Vector4.divScalarChecked, bind, Except.bind, pure, Except.pure, intDiv_ok _ _ h0 hx,
      intDiv_ok _ _ h0 hy, intDiv_ok _ _ h0 hz, intDiv_ok _ _ h0 hw]
  · rintro ⟨⟨hx0, hx1⟩, ⟨hy0, hy1⟩, ⟨hz0, hz1⟩, ⟨hw0, hw1⟩⟩
    exact vector4_divAssign_ok intDiv m4 p q _ _ _ _ (intDiv_ok _ _ hx0 hx1)
      (intDiv_ok _ _ hy0 hy1) (intDiv_ok _ _ hz0 hz1) (intDiv_ok _ _ hw0 hw1)

/-- Witness for amended C14: `(6, 8) / (3, 2)` is `(2, 4)`, `(7, -7, INT_MIN) / 2` is the three
truncated quotients, and `a /= b` on `(6, 8)` and `(3, 2)` leaves `(2, 4)` in `a` and `b` as it
was. -/
theorem int_division_fails_iff_scalar_division_fails_witness :
    Vector2.divChecked intDiv (Vector2.mk 6 8) (Vector2.mk 3 2)
        = .ok ⟨(6 : Int).tdiv 3, (8 : Int).tdiv 2⟩ ∧
    Vector3.divScalarChecked intDiv (Vector3.mk 7 (-7) INT_MIN) 2
        = .ok ⟨(7 : Int).tdiv 2, (-7 : Int).tdiv 2, INT_MIN.tdiv 2⟩ ∧
    (∃ m', Vector2.divAssignChecked intDiv
        (fun p => if p = 0 then Vector2.mk 6 8 else Vector2.mk 3 2) 0 1 = .ok (m', 0) ∧
      m' 0 = ⟨(6 : Int).tdiv 3, (8 : Int).tdiv 2⟩ ∧
      ∀ c, c ≠ 0 → m' c = if c = 0 then Vector2.mk 6 8 else Vector2.mk 3 2) :=
  ⟨(int_division_fails_iff_scalar_division_fails (Vector2.mk 6 8) (Vector2.mk 3 2)
      (Vector3.mk 7 (-7) INT_MIN) (Vector3.mk 1 1 1) (Vector4.mk 1 2 3 4) (Vector4.mk 1 1 1 1) 2
      (fun p => if p = 0 then Vector2.mk 6 8 else Vector2.mk 3 2)
      (fun _ => Vector3.mk 1 1 1) (fun _ => Vector4.mk 1 1 1 1) 0 1).1.2.2.2.1 (by decide),
   (int_division_fails_iff_scalar_division_fails (Vector2.mk 6 8) (Vector2.mk 3 2)
      (Vector3.mk 7 (-7) INT_MIN) (Vector3.mk 1 1 1) (Vector4.mk 1 2 3 4) (Vector4.mk 1 1 1 1) 2
      (fun p => if p = 0 then Vector2.mk 6 8 else Vector2.mk 3 2)
      (fun _ => Vector3.mk 1 1 1) (fun _ => Vector4.mk 1 1 1 1) 0 1).2.1.2.2.2.2.1 (by decide),
   (int_division_fails_iff_scalar_division_fails (Vector2.mk 6 8) (Vector2.mk 3 2)
      (Vector3.mk 7 (-7) INT_MIN) (Vector3.mk 1 1 1) (Vector4.mk 1 2 3 4) (Vector4.mk 1 1 1 1) 2
      (fun p => if p = 0 then Vector2.mk 6 8 else Vector2.mk 3 2)
      (fun _ => Vector3.mk 1 1 1) (fun _ => Vector4.mk 1 1 1 1) 0 1).1.2.2.2.2.2 (by decide)⟩

/-! ## Angle -/

/-- C15: in each dimension `angle(a, b)` is `acos` of `dot(normalize(a), normalize(b))` clamped
with `std::clamp(_, -1, 1)`, and over a linearly ordered field that clamped value, the one
handed to `acos`, lies in `[-1, 1]` for all `a` and `b`, zero vectors included. -/
theorem angle_acos_argument_in_range {T : Type} [LinearOrderedField T] (sqrt acos : T → T)
    (a2 b2 : Vector2 T) (a3 b3 : Vector3 T) (a4 b4 : Vector4 T) :
    (Vector2.angle sqrt acos a2 b2
        = acos (std.clamp (Vector2.dot (Vector2.normalize sqrt a2) (Vector2.normalize sqrt b2)) (-1) 1) ∧
      -1 ≤ std.clamp (Vector2.dot (Vector2.normalize sqrt a2) (Vector2.normalize sqrt b2)) (-1) 1 ∧
      std.clamp (Vector2.dot (Vector2.normalize sqrt a2) (Vector2.normalize sqrt b2)) (-1) 1 ≤ 1) ∧
    (Vector3.angle sqrt acos a3 b3
        = acos (std.clamp (Vector3.dot (Vector3.normalize sqrt a3) (Vector3.normalize sqrt b3)) (-1) 1) ∧
      -1 ≤ std.clamp (Vector3.dot (Vector3.normalize sqrt a3) (Vector3.normalize sqrt b3)) (-1) 1 ∧
      std.clamp (Vector3.dot (Vector3.normalize sqrt a3) (Vector3.normalize sqrt b3)) (-1) 1 ≤ 1) ∧
    (Vector4.angle sqrt acos a4 b4
        = acos (std.clamp (Vector4.dot (Vector4.normalize sqrt a4) (Vector4.normalize sqrt b4)) (-1) 1) ∧
      -1 ≤ std.clamp (Vector4.dot (Vector4.normalize sqrt a4) (Vector4.normalize sqrt b4)) (-1) 1 ∧
      std.clamp (Vector4.dot (Vector4.normalize sqrt a4) (Vector4.normalize sqrt b4)) (-1) 1 ≤ 1) := by
  have h : (-1 : T) ≤ 1 := by norm_num
  exact ⟨⟨rfl, clamp_between _ _ _ h⟩, ⟨rfl, clamp_between _ _ _ h⟩,
    ⟨rfl, clamp_between _ _ _ h⟩⟩

/-! ## Normalisation over a scalar division that can fail -/

/-- C16: in each dimension, for every scalar division `sdiv` (even one that always fails)
`normalized()` returns the zero vector without dividing when the magnitude is `0`, and otherwise
is the division of the vector by that non-zero magnitude; so when `sdiv` succeeds on every
non-zero divisor (integer `T`), `normalized()` and `normalize()` return a vector and never fail. -/
theorem normalized_never_divides_by_zero {T E : Type} [Add T] [Mul T] [Zero T] [DecidableEq T]
    (sdiv : T → T → Except E T) (sqrt : T → T) (v2 : Vector2 T) (v3 : Vector3 T)
    (v4 : Vector4 T) :
    ((v2.magnitude sqrt = 0 → v2.normalizedChecked sdiv sqrt = .ok (Vector2.ofScalar 0)) ∧
      (v2.magnitude sqrt ≠ 0 →
        v2.normalizedChecked sdiv sqrt = v2.divScalarChecked sdiv (v2.magnitude sqrt)) ∧
      ((∀ x y : T, y ≠ 0 → ∃ q, sdiv x y = .ok q) →
        ∃ r, v2.normalizedChecked sdiv sqrt = .ok r ∧
          Vector2.normalizeChecked sdiv sqrt v2 = .ok r)) ∧
    ((v3.magnitude sqrt = 0 → v3.normalizedChecked sdiv sqrt = .ok (Vector3.ofScalar 0)) ∧
      (v3.magnitude sqrt ≠ 0 →
        v3.normalizedChecked sdiv sqrt = v3.divScalarChecked sdiv (v3.magnitude sqrt)) ∧
      ((∀ x y : T, y ≠ 0 → ∃ q, sdiv x y = .ok q) →
        ∃ r, v3.normalizedChecked sdiv sqrt = .ok r ∧
          Vector3.normalizeChecked sdiv sqrt v3 = .ok r)) ∧
    ((v4.magnitude sqrt = 0 → v4.normalizedChecked sdiv sqrt = .ok (Vector4.ofScalar 0)) ∧
      (v4.magnitude sqrt ≠ 0 →
        v4.normalizedChecked sdiv sqrt = v4.divScalarChecked sdiv (v4.magnitude sqrt)) ∧
      ((∀ x y : T, y ≠ 0 → ∃ q, sdiv x y = .ok q) →
        ∃ r, v4.normalizedChecked sdiv sqrt = .ok r ∧
          Vector4.normalizeChecked sdiv sqrt v4 = .ok r)) := by
  refine ⟨⟨?_, ?_, ?_⟩, ⟨?_, ?_, ?_⟩, ⟨?_, ?_, ?_⟩⟩
  · intro h
    simp only [Vector2.normalizedChecked, if_pos h]
    rfl
  · intro h
    simp only [Vector2.normalizedChecked, if_neg h]
  · intro hok
    by_cases h : v2.magnitude sqrt = 0
    · exact ⟨Vector2.ofScalar 0, by simp only [Vector2.normalizedChecked, if_pos h]; rfl,
        by simp only [Vector2.normalizeChecked, Vector2.normalizedChecked, if_pos h]; rfl⟩
    · obtain ⟨qx, hqx⟩ := hok v2.x (v2.magnitude sqrt) h
      obtain ⟨qy, hqy⟩ := hok v2.y (v2.magnitude sqrt) h
      exact ⟨⟨qx, qy⟩,
        by simp [Vector2.normalizedChecked, Vector2.divScalarChecked, bind, Except.bind, pure,
          Except.pure, h, hqx, hqy],
        by simp [Vector2.normalizeChecked, Vector2.normalizedChecked, Vector2.divScalarChecked,
          bind, Except.bind, pure, Except.pure, h,
          hqx, hqy]⟩
  · intro h
    simp only [Vector3.normalizedChecked, if_pos h]
    rfl
  · intro h
    simp only [Vector3.normalizedChecked, if_neg h]
  · intro hok
    by_cases h : v3.magnitude sqrt = 0
    · exact ⟨Vector3.ofScalar 0, by simp only [Vector3.normalizedChecked, if_pos h]; rfl,
        by simp only [Vector3.normalizeChecked, Vector3.normalizedChecked, if_pos h]; rfl⟩
    · obtain ⟨qx, hqx⟩ := hok v3.x (v3.magnitude sqrt) h
      obtain ⟨qy, hqy⟩ := hok v3.y (v3.magnitude sqrt) h
      obtain ⟨qz, hqz⟩ := hok v3.z (v3.magnitude sqrt) h
      exact ⟨⟨qx, qy, qz⟩,
        by simp [Vector3.normalizedChecked, Vector3.divScalarChecked, bind, Except.bind, pure,
          Except.pure, h, hqx, hqy, hqz],
        by simp [Vector3.normalizeChecked, Vector3.normalizedChecked, Vector3.divScalarChecked,
          bind, Except.bind, pure, Except.pure, h,
          hqx, hqy, hqz]⟩
  · intro h
    simp only [Vector4.normalizedChecked, if_pos h]
    rfl
  · intro h
    simp only [Vector4.normalizedChecked, if_neg h]
  · intro hok
    by_cases h : v4.magnitude sqrt = 0
    · exact ⟨Vector4.ofScalar 0, by simp only [Vector4.normalizedChecked, if_pos h]; rfl,
        by simp only [Vector4.normalizeChecked, Vector4.normalizedChecked, if_pos h]; rfl⟩
    · obtain ⟨qx, hqx⟩ := hok v4.x (v4.magnitude sqrt) h
      obtain ⟨qy, hqy⟩ := hok v4.y (v4.magnitude sqrt) h
      obtain ⟨qz, hqz⟩ := hok v4.z (v4.magnitude sqrt) h
      obtain ⟨qw, hqw⟩ := hok v4.w (v4.magnitude sqrt) h
      exact ⟨⟨qx, qy, qz, qw⟩,
        by simp [Vector4.normalizedChecked, Vector4.divScalarChecked, bind, Except.bind, pure,
          Except.pure, h, hqx, hqy, hqz, hqw],
        by simp [Vector4.normalizeChecked, Vector4.normalizedChecked, Vector4.divScalarChecked,
          bind, Except.bind, pure, Except.pure, h,
          hqx, hqy, hqz, hqw]⟩

/-- With `int` scalars and a square root that is never `-1`, `normalized()` of a `Vector2`
returns a vector: its only divisor is a magnitude that is neither `0` nor `-1`. -/
theorem vector2_normalizedChecked_intDiv_ok (isqrt : Int → Int) (hs : ∀ n, isqrt n ≠ -1)
    (v : Vector2 Int) : ∃ r, v.normalizedChecked intDiv isqrt = .ok r := by
  by_cases h : v.magnitude isqrt = 0
  · exact ⟨Vector2.ofScalar 0, by simp only [Vector2.normalizedChecked, if_pos h]; rfl⟩
  · have hm : v.magnitude isqrt ≠ -1 := hs _
    exact ⟨⟨v.x.tdiv (v.magnitude isqrt), v.y.tdiv (v.magnitude isqrt)⟩,
      by simp [Vector2.normalizedChecked, Vector2.divScalarChecked, bind, Except.bind, pure,
        Except.pure, h,
        intDiv_ok v.x _ h (Or.inr hm), intDiv_ok v.y _ h (Or.inr hm)]⟩

/-- With `int` scalars and a square root that is never `-1`, `normalized()` of a `Vector3`
returns a vector: its only divisor is a magnitude that is neither `0` nor `-1`. -/
theorem vector3_normalizedChecked_intDiv_ok (isqrt : Int → Int) (hs : ∀ n, isqrt n ≠ -1)
    (v : Vector3 Int) : ∃ r, v.normalizedChecked intDiv isqrt = .ok r := by
  by_cases h : v.magnitude isqrt = 0
  · exact ⟨Vector3.ofScalar 0, by simp only [Vector3.normalizedChecked, if_pos h]; rfl⟩
  · have hm : v.magnitude isqrt ≠ -1 := hs _
    exact ⟨⟨v.x.tdiv (v.magnitude isqrt), v.y.tdiv (v.magnitude isqrt),
      v.z.tdiv (v.magnitude isqrt)⟩,
      by simp [Vector3.normalizedChecked, Vector3.divScalarChecked, bind, Except.bind, pure,
        Except.pure, h,
        intDiv_ok v.x _ h (Or.inr hm), intDiv_ok v.y _ h (Or.inr hm),
          intDiv_ok v.z _ h (Or.inr hm)]⟩

/-- With `int` scalars and a square root that is never `-1`, `normalized()` of a `Vector4`
returns a vector: its only divisor is a magnitude that is neither `0` nor `-1`. -/
theorem vector4_normalizedChecked_intDiv_ok (isqrt : Int → Int) (hs : ∀ n, isqrt n ≠ -1)
    (v : Vector4 Int) : ∃ r, v.normalizedChecked intDiv isqrt = .ok r := by
  by_cases h : v.magnitude isqrt = 0
  · exact ⟨Vector4.ofScalar 0, by simp only [Vector4.normalizedChecked, if_pos h]; rfl⟩
  · have hm : v.magnitude isqrt ≠ -1 := hs _
    exact ⟨⟨v.x.tdiv (v.magnitude isqrt), v.y.tdiv (v.magnitude isqrt),
      v.z.tdiv (v.magnitude isqrt), v.w.tdiv (v.magnitude isqrt)⟩,
      by simp [Vector4.normalizedChecked, Vector4.divScalarChecked, bind, Except.bind, pure,
        Except.pure, h,
        intDiv_ok v.x _ h (Or.inr hm), intDiv_ok v.y _ h (Or.inr hm),
          intDiv_ok v.z _ h (Or.inr hm), intDiv_ok v.w _ h (Or.inr hm)]⟩

/-- Witness for C16 with integer scalars.  With `int` and its division `intDiv`:
`normalized()` of `(3, 4)`, of `(0, 0, 0)` and of `(0, -1, 0, 0)` returns a vector.  With an
unsigned integer type and its division `uintDiv`, which fails only on a zero divisor:
`normalized()` of `(3, 4)` returns a vector. -/
theorem normalized_never_divides_by_zero_witness :
    (∃ r, (Vector2.mk 3 4).normalizedChecked intDiv Int.sqrt = .ok r ∧
      Vector2.normalizeChecked intDiv Int.sqrt (Vector2.mk 3 4) = .ok r) ∧
    (∃ r, (Vector3.mk 0 0 0).normalizedChecked intDiv Int.sqrt = .ok r ∧
      Vector3.normalizeChecked intDiv Int.sqrt (Vector3.mk 0 0 0) = .ok r) ∧
    (∃ r, (Vector4.mk 0 (-1) 0 0).normalizedChecked intDiv Int.sqrt = .ok r ∧
      Vector4.normalizeChecked intDiv Int.sqrt (Vector4.mk 0 (-1) 0 0) = .ok r) ∧
    (∃ r, (Vector2.mk 3 4).normalizedChecked uintDiv Nat.sqrt = .ok r ∧
      Vector2.normalizeChecked uintDiv Nat.sqrt (Vector2.mk 3 4) = .ok r) := by
  have h25 : Int.sqrt (3 * 3 + 4 * 4) = 5 := by
    have h : (3 * 3 + 4 * 4 : Int) = ((5 * 5 : Nat) : Int) := by norm_num
    rw [h, Int.sqrt, Int.toNat_natCast, Nat.sqrt_eq]
    rfl
  have h1 : Int.sqrt (0 * 0 + (-1) * (-1) + 0 * 0 + 0 * 0) = 1 := by simp [Int.sqrt]
  have e2 := (normalized_never_divides_by_zero intDiv Int.sqrt (Vector2.mk 3 4)
    (Vector3.mk 0 0 0) (Vector4.mk 0 (-1) 0 0)).1.2.1
    (by simp only [Vector2.magnitude, h25]; decide)
  have e3 := (normalized_never_divides_by_zero intDiv Int.sqrt (Vector2.mk 3 4)
    (Vector3.mk 0 0 0) (Vector4.mk 0 (-1) 0 0)).2.1.1
    (by simp [Vector3.magnitude, Int.sqrt])
  have e4 := (normalized_never_divides_by_zero intDiv Int.sqrt (Vector2.mk 3 4)
    (Vector3.mk 0 0 0) (Vector4.mk 0 (-1) 0 0)).2.2.2.1
    (by simp only [Vector4.magnitude, h1]; decide)
  refine ⟨⟨⟨0, 0⟩, ?_, ?_⟩, ⟨Vector3.ofScalar 0, e3, e3⟩, ⟨⟨0, -1, 0, 0⟩, ?_, ?_⟩, ?_⟩
  · rw [e2]
    simp only [Vector2.magnitude, h25]
    rfl
  · show (Vector2.mk 3 4).normalizedChecked intDiv Int.sqrt = _
    rw [e2]
    simp only [Vector2.magnitude, h25]
    rfl
  · rw [e4]
    simp only [Vector4.magnitude, h1]
    rfl
  · show (Vector4.mk 0 (-1) 0 0).normalizedChecked intDiv Int.sqrt = _
    rw [e4]
    simp only [Vector4.magnitude, h1]
    rfl
  · exact (normalized_never_divides_by_zero uintDiv Nat.sqrt (Vector2.mk 3 4)
      (Vector3.mk 0 0 0) (Vector4.mk 0 1 0 0)).1.2.2
      (fun x y h => ⟨x / y, by simp [uintDiv, h]⟩)

/-! ## Component-wise operators -/

/-- C17: for `+`, `-` and `*` every component of `a op b` is `op` of the matching components of
`a` and `b`, in each dimension; over a ring `Vector3(1,2,3) + Vector3(4,5,6) == Vector3(5,7,9)`
and `Vector4::one() - Vector4::one() == Vector4::zero()`. -/
theorem binary_ops_componentwise {T : Type} [Ring T] [DecidableEq T] (a2 b2 : Vector2 T)
    (a3 b3 : Vector3 T) (a4 b4 : Vector4 T) :
    ((a2.add b2).x = a2.x + b2.x ∧ (a2.add b2).y = a2.y + b2.y ∧
      (a2.sub b2).x = a2.x - b2.x ∧ (a2.sub b2).y = a2.y - b2.y ∧
      (a2.mul b2).x = a2.x * b2.x ∧ (a2.mul b2).y = a2.y * b2.y) ∧
    ((a3.add b3).x = a3.x + b3.x ∧ (a3.add b3).y = a3.y + b3.y ∧ (a3.add b3).z = a3.z + b3.z ∧
      (a3.sub b3).x = a3.x - b3.x ∧ (a3.sub b3).y = a3.y - b3.y ∧ (a3.sub b3).z = a3.z - b3.z ∧
      (a3.mul b3).x = a3.x * b3.x ∧ (a3.mul b3).y = a3.y * b3.y ∧ (a3.mul b3).z = a3.z * b3.z) ∧
    ((a4.add b4).x = a4.x + b4.x ∧ (a4.add b4).y = a4.y + b4.y ∧ (a4.add b4).z = a4.z + b4.z ∧
      (a4.add b4).w = a4.w + b4.w ∧
      (a4.sub b4).x = a4.x - b4.x ∧ (a4.sub b4).y = a4.y - b4.y ∧ (a4.sub b4).z = a4.z - b4.z ∧
        (a4.sub b4).w = a4.w - b4.w ∧
      (a4.mul b4).x = a4.x * b4.x ∧ (a4.mul b4).y = a4.y * b4.y ∧ (a4.mul b4).z = a4.z * b4.z ∧
        (a4.mul b4).w = a4.w * b4.w) ∧
    ((Vector3.mk (1 : T) 2 3).add (Vector3.mk 4 5 6)).eq (Vector3.mk 5 7 9) = true ∧
    ((Vector4.one : Vector4 T).sub Vector4.one).eq Vector4.zero = true := by
  refine ⟨⟨rfl, rfl, rfl, rfl, rfl, rfl⟩, ⟨rfl, rfl, rfl, rfl, rfl, rfl, rfl, rfl, rfl⟩,
    ⟨rfl, rfl, rfl, rfl, rfl, rfl, rfl, rfl, rfl, rfl, rfl, rfl⟩, ?_, ?_⟩
  · simp only [Vector3.add, Vector3.eq, Bool.and_eq_true, decide_eq_true_eq]
    refine ⟨⟨?_, ?_⟩, ?_⟩ <;> norm_num
  · simp [Vector4.sub, Vector4.one, Vector4.zero, Vector4.eq]

/-! ## Comparison -/

/-- C18: `a == b` is true exactly when all `N` pairs of matching components are equal, and
`a != b` is the negation of `a == b`, in each dimension. -/
theorem eq_iff_components_ne_not {T : Type} [DecidableEq T] (a2 b2 : Vector2 T)
    (a3 b3 : Vector3 T) (a4 b4 : Vector4 T) :
    ((a2.eq b2 = true ↔ a2.x = b2.x ∧ a2.y = b2.y) ∧ a2.ne b2 = !(a2.eq b2)) ∧
    ((a3.eq b3 = true ↔ a3.x = b3.x ∧ a3.y = b3.y ∧ a3.z = b3.z) ∧ a3.ne b3 = !(a3.eq b3)) ∧
    ((a4.eq b4 = true ↔ a4.x = b4.x ∧ a4.y = b4.y ∧ a4.z = b4.z ∧ a4.w = b4.w) ∧
      a4.ne b4 = !(a4.eq b4)) := by
  refine ⟨⟨?_, rfl⟩, ⟨?_, rfl⟩, ⟨?_, rfl⟩⟩
  · simp [Vector2.eq]
  · simp [Vector3.eq, and_assoc]
  · simp [Vector4.eq, and_assoc]

/-! ## Assignment through `operator[]` -/

/-- C20: in each dimension, for a valid index `i` the assignment `v[i] = t` through the mutable
`operator[]` succeeds and gives the vector whose members are those of `v` with the `i`-th
replaced by `t`; reading it back, `v[i]` returns `t` and `v[j]` for `j ≠ i` what it returned
before. -/
theorem index_assign_updates_one_component {T : Type} (v2 : Vector2 T) (v3 : Vector3 T)
    (v4 : Vector4 T) (i : Int) (t : T) :
    (0 ≤ i ∧ i ≤ 1 →
      ∃ u, v2.assignIndex i t = .ok u ∧ u.components = v2.components.set i.toNat t ∧
        u.index i = .ok t ∧ ∀ j, j ≠ i → u.index j = v2.index j) ∧
    (0 ≤ i ∧ i ≤ 2 →
      ∃ u, v3.assignIndex i t = .ok u ∧ u.components = v3.components.set i.toNat t ∧
        u.index i = .ok t ∧ ∀ j, j ≠ i → u.index j = v3.index j) ∧
    (0 ≤ i ∧ i ≤ 3 →
      ∃ u, v4.assignIndex i t = .ok u ∧ u.components = v4.components.set i.toNat t ∧
        u.index i = .ok t ∧ ∀ j, j ≠ i → u.index j = v4.index j) := by
  refine ⟨?_, ?_, ?_⟩
  · rintro ⟨h0, h1⟩
    have hi : i = 0 ∨ i = 1 := by omega
    rcases hi with rfl | rfl
    · refine ⟨_, rfl, rfl, rfl, ?_⟩
      intro j hj
      simp [Vector2.index, Vector2.store, hj]
    · refine ⟨_, rfl, rfl, rfl, ?_⟩
      intro j hj
      simp [Vector2.index, Vector2.store, hj]
  · rintro ⟨h0, h1⟩
    have hi : i = 0 ∨ i = 1 ∨ i = 2 := by omega
    rcases hi with rfl | rfl | rfl
    · refine ⟨_, rfl, rfl, rfl, ?_⟩
      intro j hj
      simp [Vector3.index, Vector3.store, hj]
    · refine ⟨_, rfl, rfl, rfl, ?_⟩
      intro j hj
      simp [Vector3.index, Vector3.store, hj]
    · refine ⟨_, rfl, rfl, rfl, ?_⟩
      intro j hj
      simp [Vector3.index, Vector3.store, hj]
  · rintro ⟨h0, h1⟩
    have hi : i = 0 ∨ i = 1 ∨ i = 2 ∨ i = 3 := by omega
    rcases hi with rfl | rfl | rfl | rfl
    · refine ⟨_, rfl, rfl, rfl, ?_⟩
      intro j hj
      simp [Vector4.index, Vector4.store, hj]
    · refine ⟨_, rfl, rfl, rfl, ?_⟩
      intro j hj
      simp [Vector4.index, Vector4.store, hj]
    · refine ⟨_, rfl, rfl, rfl, ?_⟩
      intro j hj
      simp [Vector4.index, Vector4.store, hj]
    · refine ⟨_, rfl, rfl, rfl, ?_⟩
      intro j hj
      simp [Vector4.index, Vector4.store, hj]

/-- Witness for C20 on integer vectors: `v[1] = 9` on `(1, 2)`, `v[0] = 9` on `(1, 2, 3)` and
`v[3] = 9` on `(1, 2, 3, 4)`. -/
theorem index_assign_updates_one_component_witness :
    (∃ u, (Vector2.mk (1 : Int) 2).assignIndex 1 9 = .ok u ∧
      u.components = (Vector2.mk (1 : Int) 2).components.set (1 : Int).toNat 9 ∧
      u.index 1 = .ok 9 ∧ ∀ j, j ≠ 1 → u.index j = (Vector2.mk (1 : Int) 2).index j) ∧
    (∃ u, (Vector3.mk (1 : Int) 2 3).assignIndex 0 9 = .ok u ∧
      u.components = (Vector3.mk (1 : Int) 2 3).components.set (0 : Int).toNat 9 ∧
      u.index 0 = .ok 9 ∧ ∀ j, j ≠ 0 → u.index j = (Vector3.mk (1 : Int) 2 3).index j) ∧
    (∃ u, (Vector4.mk (1 : Int) 2 3 4).assignIndex 3 9 = .ok u ∧
      u.components = (Vector4.mk (1 : Int) 2 3 4).components.set (3 : Int).toNat 9 ∧
      u.index 3 = .ok 9 ∧ ∀ j, j ≠ 3 → u.index j = (Vector4.mk (1 : Int) 2 3 4).index j) :=
  ⟨(index_assign_updates_one_component (Vector2.mk (1 : Int) 2) (Vector3.mk 1 2 3)
      (Vector4.mk 1 2 3 4) 1 9).1 (by decide),
   (index_assign_updates_one_component (Vector2.mk (1 : Int) 2) (Vector3.mk 1 2 3)
      (Vector4.mk 1 2 3 4) 0 9).2.1 (by decide),
   (index_assign_updates_one_component (Vector2.mk (1 : Int) 2) (Vector3.mk 1 2 3)
      (Vector4.mk 1 2 3 4) 3 9).2.2 (by decide)⟩

/-! ## Reflection -/

/-- C21: over a commutative ring, in each dimension, for a normal `n` with `dot(n, n) == 1`
the reflection keeps the squared length, `sqrMagnitude(reflect(v, n)) == sqrMagnitude(v)`, and
reflecting twice gives the vector back, `reflect(reflect(v, n), n) == v`. -/
theorem reflect_preserves_sqrMagnitude_involutive {T : Type} [CommRing T] [DecidableEq T]
    (v2 n2 : Vector2 T) (v3 n3 : Vector3 T) (v4 n4 : Vector4 T) :
    (Vector2.dot n2 n2 = 1 →
      (Vector2.reflect v2 n2).sqrMagnitude = v2.sqrMagnitude ∧
      (Vector2.reflect (Vector2.reflect v2 n2) n2).eq v2 = true) ∧
    (Vector3.dot n3 n3 = 1 →
      (Vector3.reflect v3 n3).sqrMagnitude = v3.sqrMagnitude ∧
      (Vector3.reflect (Vector3.reflect v3 n3) n3).eq v3 = true) ∧
    (Vector4.dot n4 n4 = 1 →
      (Vector4.reflect v4 n4).sqrMagnitude = v4.sqrMagnitude ∧
      (Vector4.reflect (Vector4.reflect v4 n4) n4).eq v4 = true) := by
  refine ⟨?_, ?_, ?_⟩
  · intro h
    simp only [Vector2.dot] at h
    simp only [Vector2.reflect, Vector2.dot, Vector2.sub, Vector2.mulScalar, Vector2.sqrMagnitude,
      Vector2.eq, Bool.and_eq_true, decide_eq_true_eq]
    refine ⟨?_, ?_, ?_⟩
    · linear_combination
        (4 * (v2.x * n2.x + v2.y * n2.y) ^ 2) * h
    · linear_combination (4 * n2.x * (v2.x * n2.x + v2.y * n2.y)) * h
    · linear_combination (4 * n2.y * (v2.x * n2.x + v2.y * n2.y)) * h
  · intro h
    simp only [Vector3.dot] at h
    simp only [Vector3.reflect, Vector3.dot, Vector3.sub, Vector3.mulScalar, Vector3.sqrMagnitude,
      Vector3.eq, Bool.and_eq_true, decide_eq_true_eq]
    refine ⟨?_, ⟨?_, ?_⟩, ?_⟩
    · linear_combination
        (4 * (v3.x * n3.x + v3.y * n3.y + v3.z * n3.z) ^ 2) * h
    · linear_combination (4 * n3.x * (v3.x * n3.x + v3.y * n3.y + v3.z * n3.z)) * h
    · linear_combination (4 * n3.y * (v3.x * n3.x + v3.y * n3.y + v3.z * n3.z)) * h
    · linear_combination (4 * n3.z * (v3.x * n3.x + v3.y * n3.y + v3.z * n3.z)) * h
  · intro h
    simp only [Vector4.dot] at h
    simp only [Vector4.reflect, Vector4.dot, Vector4.sub, Vector4.mulScalar, Vector4.sqrMagnitude,
      Vector4.eq, Bool.and_eq_true, decide_eq_true_eq]
    refine ⟨?_, ⟨⟨?_, ?_⟩, ?_⟩, ?_⟩
    · linear_combination
        (4 * (v4.x * n4.x + v4.y * n4.y + v4.z * n4.z + v4.w * n4.w) ^ 2) * h
    · linear_combination
        (4 * n4.x * (v4.x * n4.x + v4.y * n4.y + v4.z * n4.z + v4.w * n4.w)) * h
    · linear_combination
        (4 * n4.y * (v4.x * n4.x + v4.y * n4.y + v4.z * n4.z + v4.w * n4.w)) * h
    · linear_combination
        (4 * n4.z * (v4.x * n4.x + v4.y * n4.y + v4.z * n4.z + v4.w * n4.w)) * h
    · linear_combination
        (4 * n4.w * (v4.x * n4.x + v4.y * n4.y + v4.z * n4.z + v4.w * n4.w)) * h

/-- Witness for C21 on integer vectors with axis normals. -/
theorem reflect_preserves_sqrMagnitude_involutive_witness :
    ((Vector2.reflect (Vector2.mk (3 : Int) 4) (Vector2.mk 0 1)).sqrMagnitude
        = (Vector2.mk (3 : Int) 4).sqrMagnitude ∧
      (Vector2.reflect (Vector2.reflect (Vector2.mk (3 : Int) 4) (Vector2.mk 0 1))
        (Vector2.mk 0 1)).eq (Vector2.mk 3 4) = true) ∧
    ((Vector3.reflect (Vector3.mk (1 : Int) (-2) 3) (Vector3.mk (-1) 0 0)).sqrMagnitude
        = (Vector3.mk (1 : Int) (-2) 3).sqrMagnitude ∧
      (Vector3.reflect (Vector3.reflect (Vector3.mk (1 : Int) (-2) 3) (Vector3.mk (-1) 0 0))
        (Vector3.mk (-1) 0 0)).eq (Vector3.mk 1 (-2) 3) = true) ∧
    ((Vector4.reflect (Vector4.mk (1 : Int) 2 3 4) (Vector4.mk 0 0 0 1)).sqrMagnitude
        = (Vector4.mk (1 : Int) 2 3 4).sqrMagnitude ∧
      (Vector4.reflect (Vector4.reflect (Vector4.mk (1 : Int) 2 3 4) (Vector4.mk 0 0 0 1))
        (Vector4.mk 0 0 0 1)).eq (Vector4.mk 1 2 3 4) = true) :=
  ⟨(reflect_preserves_sqrMagnitude_involutive (Vector2.mk (3 : Int) 4) (Vector2.mk 0 1)
      (Vector3.mk 1 (-2) 3) (Vector3.mk (-1) 0 0) (Vector4.mk 1 2 3 4) (Vector4.mk 0 0 0 1)).1
      (by decide),
   (reflect_preserves_sqrMagnitude_involutive (Vector2.mk (3 : Int) 4) (Vector2.mk 0 1)
      (Vector3.mk 1 (-2) 3) (Vector3.mk (-1) 0 0) (Vector4.mk 1 2 3 4) (Vector4.mk 0 0 0 1)).2.1
      (by decide),
   (reflect_preserves_sqrMagnitude_involutive (Vector2.mk (3 : Int) 4) (Vector2.mk 0 1)
      (Vector3.mk 1 (-2) 3) (Vector3.mk (-1) 0 0) (Vector4.mk 1 2 3 4) (Vector4.mk 0 0 0 1)).2.2
      (by decide)⟩

/-! ## Cross product identities -/

/-- C22: over a commutative ring, for all `Vector3` `a` and `b`, `dot(cross(a, b), a) == 0`,
`dot(cross(a, b), b) == 0` and `cross(a, b) == -cross(b, a)`. -/
theorem cross_orthogonal_anticomm {T : Type} [CommRing T] [DecidableEq T] (a b : Vector3 T) :
    Vector3.dot (Vector3.cross a b) a = 0 ∧
    Vector3.dot (Vector3.cross a b) b = 0 ∧
    (Vector3.cross a b).eq (Vector3.cross b a).neg = true := by
  refine ⟨?_, ?_, ?_⟩
  · simp only [Vector3.dot, Vector3.cross]
    ring
  · simp only [Vector3.dot, Vector3.cross]
    ring
  · simp only [Vector3.cross, Vector3.neg, Vector3.eq, Bool.and_eq_true, decide_eq_true_eq]
    refine ⟨⟨?_, ?_⟩, ?_⟩ <;> ring

/-! ## Angle with a zero-length operand -/

/-- Over a scalar division that succeeds on every non-zero divisor, `normalized()` of a
`Vector2` returns a vector. -/
theorem vector2_normalizedChecked_ok {T E : Type} [Add T] [Mul T] [Zero T] [DecidableEq T]
    (sdiv : T → T → Except E T) (hok : ∀ x y : T, y ≠ 0 → ∃ q, sdiv x y = .ok q)
    (sqrt : T → T) (v : Vector2 T) : ∃ r, v.normalizedChecked sdiv sqrt = .ok r := by
  by_cases h : v.magnitude sqrt = 0
  · exact ⟨Vector2.ofScalar 0, by simp only [Vector2.normalizedChecked, if_pos h]; rfl⟩
  · obtain ⟨qx, hqx⟩ := hok v.x (v.magnitude sqrt) h
    obtain ⟨qy, hqy⟩ := hok v.y (v.magnitude sqrt) h
    exact ⟨⟨qx, qy⟩,
      by simp [Vector2.normalizedChecked, Vector2.divScalarChecked, bind, Except.bind, pure,
        Except.pure, h, hqx, hqy]⟩

/-- Over the reals `normalized()` of the zero `Vector2` is the zero vector, with no division. -/
theorem vector2_normalized_zero {E : Type} (sdiv : ℝ → ℝ → Except E ℝ) :
    (Vector2.zero : Vector2 ℝ).normalized Real.sqrt = Vector2.ofScalar 0 ∧
    (Vector2.zero : Vector2 ℝ).normalizedChecked sdiv Real.sqrt = .ok (Vector2.ofScalar 0) := by
  have h : (Vector2.zero : Vector2 ℝ).magnitude Real.sqrt = 0 := by
    simp [Vector2.magnitude, Vector2.zero]
  constructor
  · simp only [Vector2.normalized, if_pos h]
  · simp only [Vector2.normalizedChecked, if_pos h]
    rfl

/-- Over a scalar division that succeeds on every non-zero divisor, `normalized()` of a
`Vector3` returns a vector. -/
theorem vector3_normalizedChecked_ok {T E : Type} [Add T] [Mul T] [Zero T] [DecidableEq T]
    (sdiv : T → T → Except E T) (hok : ∀ x y : T, y ≠ 0 → ∃ q, sdiv x y = .ok q)
    (sqrt : T → T) (v : Vector3 T) : ∃ r, v.normalizedChecked sdiv sqrt = .ok r := by
  by_cases h : v.magnitude sqrt = 0
  · exact ⟨Vector3.ofScalar 0, by simp only [Vector3.normalizedChecked, if_pos h]; rfl⟩
  · obtain ⟨qx, hqx⟩ := hok v.x (v.magnitude sqrt) h
    obtain ⟨qy, hqy⟩ := hok v.y (v.magnitude sqrt) h
    obtain ⟨qz, hqz⟩ := hok v.z (v.magnitude sqrt) h
    exact ⟨⟨qx, qy, qz⟩,
      by simp [Vector3.normalizedChecked, Vector3.divScalarChecked, bind, Except.bind, pure,
        Except.pure, h, hqx, hqy, hqz]⟩

/-- Over the reals `normalized()` of the zero `Vector3` is the zero vector, with no division. -/
theorem vector3_normalized_zero {E : Type} (sdiv : ℝ → ℝ → Except E ℝ) :
    (Vector3.zero : Vector3 ℝ).normalized Real.sqrt = Vector3.ofScalar 0 ∧
    (Vector3.zero : Vector3 ℝ).normalizedChecked sdiv Real.sqrt = .ok (Vector3.ofScalar 0) := by
  have h : (Vector3.zero : Vector3 ℝ).magnitude Real.sqrt = 0 := by
    simp [Vector3.magnitude, Vector3.zero]
  constructor
  · simp only [Vector3.normalized, if_pos h]
  · simp only [Vector3.normalizedChecked, if_pos h]
    rfl

/-- Over a scalar division that succeeds on every non-zero divisor, `normalized()` of a
`Vector4` returns a vector. -/
theorem vector4_normalizedChecked_ok {T E : Type} [Add T] [Mul T] [Zero T] [DecidableEq T]
    (sdiv : T → T → Except E T) (hok : ∀ x y : T, y ≠ 0 → ∃ q, sdiv x y = .ok q)
    (sqrt : T → T) (v : Vector4 T) : ∃ r, v.normalizedChecked sdiv sqrt = .ok r := by
  by_cases h : v.magnitude sqrt = 0
  · exact ⟨Vector4.ofScalar 0, by simp only [Vector4.normalizedChecked, if_pos h]; rfl⟩
  · obtain ⟨qx, hqx⟩ := hok v.x (v.magnitude sqrt) h
    obtain ⟨qy, hqy⟩ := hok v.y (v.magnitude sqrt) h
    obtain ⟨qz, hqz⟩ := hok v.z (v.magnitude sqrt) h
    obtain ⟨qw, hqw⟩ := hok v.w (v.magnitude sqrt) h
    exact ⟨⟨qx, qy, qz, qw⟩,
      by simp [Vector4.normalizedChecked, Vector4.divScalarChecked, bind, Except.bind, pure,
        Except.pure, h, hqx, hqy, hqz, hqw]⟩

/-- Over the reals `normalized()` of the zero `Vector4` is the zero vector, with no division. -/
theorem vector4_normalized_zero {E : Type} (sdiv : ℝ → ℝ → Except E ℝ) :
    (Vector4.zero : Vector4 ℝ).normalized Real.sqrt = Vector4.ofScalar 0 ∧
    (Vector4.zero : Vector4 ℝ).normalizedChecked sdiv Real.sqrt = .ok (Vector4.ofScalar 0) := by
  have h : (Vector4.zero : Vector4 ℝ).magnitude Real.sqrt = 0 := by
    simp [Vector4.magnitude, Vector4.zero]
  constructor
  · simp only [Vector4.normalized, if_pos h]
  · simp only [Vector4.normalizedChecked, if_pos h]
    rfl

/-- The scalar `std::clamp(0, -1, 1)` over the reals is `0`. -/
theorem clamp_zero_neg_one_one : std.clamp (0 : ℝ) (-1) 1 = 0 := by
  unfold std.clamp
  rw [if_neg (by norm_num), if_neg (by norm_num)]

/-- C23: over the reals, in each dimension and for every vector `a`, `angle(a, zero())` and
`angle(zero(), a)` hand `0` to `acos`, whatever `acos` is, so both are `acos(0) = pi / 2`; and
over a scalar division that succeeds on every non-zero divisor neither call fails. -/
theorem angle_with_zero_eq_half_pi {E : Type} (sdiv : ℝ → ℝ → Except E ℝ) (acos : ℝ → ℝ)
    (a2 : Vector2 ℝ) (a3 : Vector3 ℝ) (a4 : Vector4 ℝ) :
    (Vector2.angle Real.sqrt acos a2 Vector2.zero = acos 0 ∧
      Vector2.angle Real.sqrt acos Vector2.zero a2 = acos 0 ∧
      Vector2.angle Real.sqrt Real.arccos a2 Vector2.zero = Real.pi / 2 ∧
      Vector2.angle Real.sqrt Real.arccos Vector2.zero a2 = Real.pi / 2 ∧
      ((∀ x y : ℝ, y ≠ 0 → ∃ q, sdiv x y = .ok q) →
        Vector2.angleChecked sdiv Real.sqrt Real.arccos a2 Vector2.zero = .ok (Real.pi / 2) ∧
        Vector2.angleChecked sdiv Real.sqrt Real.arccos Vector2.zero a2 = .ok (Real.pi / 2))) ∧
    (Vector3.angle Real.sqrt acos a3 Vector3.zero = acos 0 ∧
      Vector3.angle Real.sqrt acos Vector3.zero a3 = acos 0 ∧
      Vector3.angle Real.sqrt Real.arccos a3 Vector3.zero = Real.pi / 2 ∧
      Vector3.angle Real.sqrt Real.arccos Vector3.zero a3 = Real.pi / 2 ∧
      ((∀ x y : ℝ, y ≠ 0 → ∃ q, sdiv x y = .ok q) →
        Vector3.angleChecked sdiv Real.sqrt Real.arccos a3 Vector3.zero = .ok (Real.pi / 2) ∧
        Vector3.angleChecked sdiv Real.sqrt Real.arccos Vector3.zero a3 = .ok (Real.pi / 2))) ∧
    (Vector4.angle Real.sqrt acos a4 Vector4.zero = acos 0 ∧
      Vector4.angle Real.sqrt acos Vector4.zero a4 = acos 0 ∧
      Vector4.angle Real.sqrt Real.arccos a4 Vector4.zero = Real.pi / 2 ∧
      Vector4.angle Real.sqrt Real.arccos Vector4.zero a4 = Real.pi / 2 ∧
      ((∀ x y : ℝ, y ≠ 0 → ∃ q, sdiv x y = .ok q) →
        Vector4.angleChecked sdiv Real.sqrt Real.arccos a4 Vector4.zero = .ok (Real.pi / 2) ∧
        Vector4.angleChecked sdiv Real.sqrt Real.arccos Vector4.zero a4 = .ok (Real.pi / 2))) := by
  refine ⟨?_, ?_, ?_⟩
  · have hz := (vector2_normalized_zero sdiv).1
    have hzc := (vector2_normalized_zero sdiv).2
    have h1 : ∀ f : ℝ → ℝ, Vector2.angle Real.sqrt f a2 Vector2.zero = f 0 := by
      intro f
      simp [Vector2.angle, hz, Vector2.dot, Vector2.ofScalar, clamp_zero_neg_one_one]
    have h2 : ∀ f : ℝ → ℝ, Vector2.angle Real.sqrt f Vector2.zero a2 = f 0 := by
      intro f
      simp [Vector2.angle, hz, Vector2.dot, Vector2.ofScalar, clamp_zero_neg_one_one]
    refine ⟨h1 acos, h2 acos, ?_, ?_, ?_⟩
    · rw [h1, Real.arccos_zero]
    · rw [h2, Real.arccos_zero]
    · intro hok
      obtain ⟨r, hr⟩ := vector2_normalizedChecked_ok sdiv hok Real.sqrt a2
      constructor
      · simp [Vector2.angleChecked, hr, hzc, bind, Except.bind, pure, Except.pure, Vector2.dot,
        Vector2.ofScalar,
          clamp_zero_neg_one_one, Real.arccos_zero]
      · simp [Vector2.angleChecked, hr, hzc, bind, Except.bind, pure, Except.pure, Vector2.dot,
        Vector2.ofScalar,
          clamp_zero_neg_one_one, Real.arccos_zero]
  · have hz := (vector3_normalized_zero sdiv).1
    have hzc := (vector3_normalized_zero sdiv).2
    have h1 : ∀ f : ℝ → ℝ, Vector3.angle Real.sqrt f a3 Vector3.zero = f 0 := by
      intro f
      simp [Vector3.angle, hz, Vector3.dot, Vector3.ofScalar, clamp_zero_neg_one_one]
    have h2 : ∀ f : ℝ → ℝ, Vector3.angle Real.sqrt f Vector3.zero a3 = f 0 := by
      intro f
      simp [Vector3.angle, hz, Vector3.dot, Vector3.ofScalar, clamp_zero_neg_one_one]
    refine ⟨h1 acos, h2 acos, ?_, ?_, ?_⟩
    · rw [h1, Real.arccos_zero]
    · rw [h2, Real.arccos_zero]
    · intro hok
      obtain ⟨r, hr⟩ := vector3_normalizedChecked_ok sdiv hok Real.sqrt a3
      constructor
      · simp [Vector3.angleChecked, hr, hzc, bind, Except.bind, pure, Except.pure, Vector3.dot,
        Vector3.ofScalar,
          clamp_zero_neg_one_one, Real.arccos_zero]
      · simp [Vector3.angleChecked, hr, hzc, bind, Except.bind, pure, Except.pure, Vector3.dot,
        Vector3.ofScalar,
          clamp_zero_neg_one_one, Real.arccos_zero]
  · have hz := (vector4_normalized_zero sdiv).1
    have hzc := (vector4_normalized_zero sdiv).2
    have h1 : ∀ f : ℝ → ℝ, Vector4.angle Real.sqrt f a4 Vector4.zero = f 0 := by
      intro f
      simp [Vector4.angle, hz, Vector4.dot, Vector4.ofScalar, clamp_zero_neg_one_one]
    have h2 : ∀ f : ℝ → ℝ, Vector4.angle Real.sqrt f Vector4.zero a4 = f 0 := by
      intro f
      simp [Vector4.angle, hz, Vector4.dot, Vector4.ofScalar, clamp_zero_neg_one_one]
    refine ⟨h1 acos, h2 acos, ?_, ?_, ?_⟩
    · rw [h1, Real.arccos_zero]
    · rw [h2, Real.arccos_zero]
    · intro hok
      obtain ⟨r, hr⟩ := vector4_normalizedChecked_ok sdiv hok Real.sqrt a4
      constructor
      · simp [Vector4.angleChecked, hr, hzc, bind, Except.bind, pure, Except.pure, Vector4.dot,
        Vector4.ofScalar,
          clamp_zero_neg_one_one, Real.arccos_zero]
      · simp [Vector4.angleChecked, hr, hzc, bind, Except.bind, pure, Except.pure, Vector4.dot,
        Vector4.ofScalar,
          clamp_zero_neg_one_one, Real.arccos_zero]

/-- Witness for C23 with the division of the reals, which never fails: the angles of `(3, 4)`,
`(1, 2, 3)` and `(0, 0, 0, 0)` with the zero vector. -/
theorem angle_with_zero_eq_half_pi_witness :
    (Vector2.angleChecked totalDiv Real.sqrt Real.arccos (Vector2.mk 3 4) Vector2.zero
        = .ok (Real.pi / 2) ∧
      Vector2.angleChecked totalDiv Real.sqrt Real.arccos Vector2.zero (Vector2.mk 3 4)
        = .ok (Real.pi / 2)) ∧
    (Vector3.angleChecked totalDiv Real.sqrt Real.arccos (Vector3.mk 1 2 3) Vector3.zero
        = .ok (Real.pi / 2) ∧
      Vector3.angleChecked totalDiv Real.sqrt Real.arccos Vector3.zero (Vector3.mk 1 2 3)
        = .ok (Real.pi / 2)) ∧
    (Vector4.angleChecked totalDiv Real.sqrt Real.arccos (Vector4.mk 0 0 0 0) Vector4.zero
        = .ok (Real.pi / 2) ∧
      Vector4.angleChecked totalDiv Real.sqrt Real.arccos Vector4.zero (Vector4.mk 0 0 0 0)
        = .ok (Real.pi / 2)) :=
  ⟨(angle_with_zero_eq_half_pi totalDiv Real.arccos (Vector2.mk 3 4) (Vector3.mk 1 2 3)
      (Vector4.mk 0 0 0 0)).1.2.2.2.2 (fun x y _ => ⟨x / y, rfl⟩),
   (angle_with_zero_eq_half_pi totalDiv Real.arccos (Vector2.mk 3 4) (Vector3.mk 1 2 3)
      (Vector4.mk 0 0 0 0)).2.1.2.2.2.2 (fun x y _ => ⟨x / y, rfl⟩),
   (angle_with_zero_eq_half_pi totalDiv Real.arccos (Vector2.mk 3 4) (Vector3.mk 1 2 3)
      (Vector4.mk 0 0 0 0)).2.2.2.2.2.2 (fun x y _ => ⟨x / y, rfl⟩)⟩

/-! ## Clamp as min of max -/

/-- With `lo ≤ hi`, `std::clamp(v, lo, hi)` is `std::min(std::max(v, lo), hi)`. -/
theorem clamp_eq_min_max {T : Type} [LinearOrder T] (v lo hi : T) (h : lo ≤ hi) :
    std.clamp v lo hi = std.min (std.max v lo) hi := by
  unfold std.clamp std.min std.max
  by_cases h1 : v < lo
  · simp [h1, not_lt.2 h]
  · simp [h1]

/-- With `lo ≤ v ≤ hi`, `std::clamp(v, lo, hi)` is `v`. -/
theorem clamp_eq_self {T : Type} [LinearOrder T] (v lo hi : T) (h1 : lo ≤ v) (h2 : v ≤ hi) :
    std.clamp v lo hi = v := by
  unfold std.clamp
  simp [not_lt.2 h1, not_lt.2 h2]

/-- C24: over a linearly ordered scalar type, in each dimension, when every component of `lo`
is at most the matching component of `hi`, `clamp(v, lo, hi) == min(max(v, lo), hi)`; and when
every component of `v` lies between the matching components of `lo` and `hi`,
`clamp(v, lo, hi) == v`. -/
theorem clamp_eq_min_max_and_fixes_inside {T : Type} [LinearOrder T] (a2 lo2 hi2 : Vector2 T)
    (a3 lo3 hi3 : Vector3 T) (a4 lo4 hi4 : Vector4 T) :
    ((lo2.x ≤ hi2.x ∧ lo2.y ≤ hi2.y →
        (Vector2.clamp a2 lo2 hi2).eq (Vector2.min (Vector2.max a2 lo2) hi2) = true) ∧
      ((lo2.x ≤ a2.x ∧ a2.x ≤ hi2.x) ∧ (lo2.y ≤ a2.y ∧ a2.y ≤ hi2.y) →
        (Vector2.clamp a2 lo2 hi2).eq a2 = true)) ∧
    ((lo3.x ≤ hi3.x ∧ lo3.y ≤ hi3.y ∧ lo3.z ≤ hi3.z →
        (Vector3.clamp a3 lo3 hi3).eq (Vector3.min (Vector3.max a3 lo3) hi3) = true) ∧
      ((lo3.x ≤ a3.x ∧ a3.x ≤ hi3.x) ∧ (lo3.y ≤ a3.y ∧ a3.y ≤ hi3.y) ∧
          (lo3.z ≤ a3.z ∧ a3.z ≤ hi3.z) →
        (Vector3.clamp a3 lo3 hi3).eq a3 = true)) ∧
    ((lo4.x ≤ hi4.x ∧ lo4.y ≤ hi4.y ∧ lo4.z ≤ hi4.z ∧ lo4.w ≤ hi4.w →
        (Vector4.clamp a4 lo4 hi4).eq (Vector4.min (Vector4.max a4 lo4) hi4) = true) ∧
      ((lo4.x ≤ a4.x ∧ a4.x ≤ hi4.x) ∧ (lo4.y ≤ a4.y ∧ a4.y ≤ hi4.y) ∧
          (lo4.z ≤ a4.z ∧ a4.z ≤ hi4.z) ∧ (lo4.w ≤ a4.w ∧ a4.w ≤ hi4.w) →
        (Vector4.clamp a4 lo4 hi4).eq a4 = true)) := by
  refine ⟨⟨?_, ?_⟩, ⟨?_, ?_⟩, ⟨?_, ?_⟩⟩
  · rintro ⟨hx, hy⟩
    simp [Vector2.clamp, Vector2.min, Vector2.max, Vector2.eq, clamp_eq_min_max _ _ _ hx,
      clamp_eq_min_max _ _ _ hy]
  · rintro ⟨hx, hy⟩
    simp [Vector2.clamp, Vector2.eq, clamp_eq_self _ _ _ hx.1 hx.2, clamp_eq_self _ _ _ hy.1 hy.2]
  · rintro ⟨hx, hy, hz⟩
    simp [Vector3.clamp, Vector3.min, Vector3.max, Vector3.eq, clamp_eq_min_max _ _ _ hx,
      clamp_eq_min_max _ _ _ hy, clamp_eq_min_max _ _ _ hz]
  · rintro ⟨hx, hy, hz⟩
    simp [Vector3.clamp, Vector3.eq, clamp_eq_self _ _ _ hx.1 hx.2, clamp_eq_self _ _ _ hy.1 hy.2,
      clamp_eq_self _ _ _ hz.1 hz.2]
  · rintro ⟨hx, hy, hz, hw⟩
    simp [Vector4.clamp, Vector4.min, Vector4.max, Vector4.eq, clamp_eq_min_max _ _ _ hx,
      clamp_eq_min_max _ _ _ hy, clamp_eq_min_max _ _ _ hz, clamp_eq_min_max _ _ _ hw]
  · rintro ⟨hx, hy, hz, hw⟩
    simp [Vector4.clamp, Vector4.eq, clamp_eq_self _ _ _ hx.1 hx.2, clamp_eq_self _ _ _ hy.1 hy.2,
      clamp_eq_self _ _ _ hz.1 hz.2, clamp_eq_self _ _ _ hw.1 hw.2]

/-- Witness for C24 on integer vectors: values below, inside and above the bounds, and a vector
already inside. -/
theorem clamp_eq_min_max_and_fixes_inside_witness :
    (Vector2.clamp (Vector2.mk (0 : Int) 7) (Vector2.mk 1 2) (Vector2.mk 5 6)).eq
        (Vector2.min (Vector2.max (Vector2.mk 0 7) (Vector2.mk 1 2)) (Vector2.mk 5 6)) = true ∧
    (Vector3.clamp (Vector3.mk (2 : Int) 3 4) (Vector3.mk 1 3 0) (Vector3.mk 5 3 4)).eq
        (Vector3.mk 2 3 4) = true ∧
    (Vector4.clamp (Vector4.mk (0 : Int) 7 3 (-2)) (Vector4.mk 1 2 3 (-4)) (Vector4.mk 5 6 3 8)).eq
        (Vector4.min (Vector4.max (Vector4.mk 0 7 3 (-2)) (Vector4.mk 1 2 3 (-4)))
          (Vector4.mk 5 6 3 8)) = true :=
  ⟨(clamp_eq_min_max_and_fixes_inside (Vector2.mk (0 : Int) 7) (Vector2.mk 1 2) (Vector2.mk 5 6)
      (Vector3.mk 2 3 4) (Vector3.mk 1 3 0) (Vector3.mk 5 3 4)
      (Vector4.mk 0 7 3 (-2)) (Vector4.mk 1 2 3 (-4)) (Vector4.mk 5 6 3 8)).1.1 (by decide),
   (clamp_eq_min_max_and_fixes_inside (Vector2.mk (0 : Int) 7) (Vector2.mk 1 2) (Vector2.mk 5 6)
      (Vector3.mk 2 3 4) (Vector3.mk 1 3 0) (Vector3.mk 5 3 4)
      (Vector4.mk 0 7 3 (-2)) (Vector4.mk 1 2 3 (-4)) (Vector4.mk 5 6 3 8)).2.1.2 (by decide),
   (clamp_eq_min_max_and_fixes_inside (Vector2.mk (0 : Int) 7) (Vector2.mk 1 2) (Vector2.mk 5 6)
      (Vector3.mk 2 3 4) (Vector3.mk 1 3 0) (Vector3.mk 5 3 4)
      (Vector4.mk 0 7 3 (-2)) (Vector4.mk 1 2 3 (-4)) (Vector4.mk 5 6 3 8)).2.2.1 (by decide)⟩

end lumina
